import Mathlib

/-!
Verification of the multi-agent industrial-telemetry pipeline.

The Python sources are shallowly embedded: machine rows and result
dictionaries become structures, pandas column arithmetic becomes `Rat`
computation over `List`s (with `Option Rat` standing for NaN, which pandas
propagates and skips in means/quantiles), and Python exceptions become
`Except`.  Stages whose outputs no claim inspects (CSV loading, the raw /
processed data validators, the report text generator) enter the pipeline
model as environment inputs, so the orchestrator theorems quantify over
their outputs; the orchestrator's own control flow (gates, retry loops,
status, traceability history) is translated line by line from
`orchestrator.py`.
-/

set_option maxRecDepth 8000

namespace MAS

/-! ## String helpers (Python `str.lower` / `str.upper` / `in`) -/

/-- Python `str.lower` on one character: ASCII plus the accented French
uppercase letters that occur in the agents' keyword lists. -/
def pyLowerChar (c : Char) : Char :=
  if c = 'É' then 'é' else if c = 'È' then 'è' else if c = 'Ê' then 'ê'
  else if c = 'À' then 'à' else if c = 'Â' then 'â' else if c = 'Î' then 'î'
  else if c = 'Ô' then 'ô' else if c = 'Û' then 'û' else if c = 'Ç' then 'ç'
  else c.toLower

/-- Python `str.upper` on one character: ASCII plus accented French letters. -/
def pyUpperChar (c : Char) : Char :=
  if c = 'é' then 'É' else if c = 'è' then 'È' else if c = 'ê' then 'Ê'
  else if c = 'à' then 'À' else if c = 'â' then 'Â' else if c = 'î' then 'Î'
  else if c = 'ô' then 'Ô' else if c = 'û' then 'Û' else if c = 'ç' then 'Ç'
  else c.toUpper

/-- Python `str.lower`. -/
def pyLower (s : String) : String := String.mk (s.data.map pyLowerChar)

/-- Python `str.upper`. -/
def pyUpper (s : String) : String := String.mk (s.data.map pyUpperChar)

/-- `needle` occurs as a contiguous sublist of `hay`. -/
def listInfix (needle : List Char) : List Char → Bool
  | [] => needle.isEmpty
  | c :: t => needle.isPrefixOf (c :: t) || listInfix needle t

/-- Python `needle in hay` on strings: substring containment. -/
def strContains (hay needle : String) : Bool :=
  listInfix needle.data hay.data

/-- Python `any(term in hay for term in needles)`. -/
def containsAny (hay : String) (needles : List String) : Bool :=
  needles.any (fun n => strContains hay n)

/-! ## Shared data model

`Summary` embeds the analysis-summary dict; the agents read its keys with
`.get(key, default)`, so the fields are `Option`s and each read site applies
the source's own default. -/

structure Summary where
  total_machines : Option Nat := none
  critical_machine_count : Option Nat := none
  avg_health_score : Option Rat := none
  avg_utilization : Option Rat := none
  deriving Repr, DecidableEq

/-- Result dict returned by `LLMInsightAgent.interpret`. -/
structure LLMResult where
  text : String
  status : String
  model_name : Option String := none
  error_msg : Option String := none
  deriving Repr, DecidableEq

/-- The anomaly map returned by `AnomalyDetectorAgent.detect_anomalies`:
category name to ordered machine-ID list. -/
structure Anomalies where
  high_temperature : List String := []
  high_vibration : List String := []
  energy_spikes : List String := []
  zero_utilization : List String := []
  very_low_utilization : List String := []
  high_sound : List String := []
  maintenance_overdue : List String := []
  maintenance_critical : List String := []
  high_error_rate : List String := []
  high_ai_override : List String := []
  multi_factor_critical : List String := []
  deriving Repr, DecidableEq

/-! ## QualityControlAgent (`agents/quality_control.py`)

Issues and warnings are f-strings in the source; they are embedded as tagged
values carrying the same data so that theorems can name which check fired. -/

inductive QCIssue where
  | tooShort (len : Nat)
  | understatesCriticality (criticalCount : Nat)
  | ignoresLowHealth (avgHealth : Rat)
  deriving Repr, DecidableEq

inductive QCWarning where
  | tooLong (len : Nat)
  | fallbackMode
  | missingContent (sections : List String)
  | concerningTerms (terms : List String)
  | notActionable
  deriving Repr, DecidableEq

structure QCResult where
  valid : Bool
  issues : List QCIssue
  warnings : List QCWarning
  retry_needed : Bool
  quality_score : Rat
  deriving Repr, DecidableEq

/-- `self.criteria['min_length']`. -/
def qc_min_length : Nat := 100

/-- `self.criteria['max_length']`. -/
def qc_max_length : Nat := 10000

/-- `self.criteria['required_sections']`. -/
def qc_required_sections : List String := ["problème", "action", "recommand"]

/-- `self.criteria['forbidden_terms']`. -/
def qc_forbidden_terms : List String := ["erreur", "impossible", "échec"]

/-- `QualityControlAgent._check_consistency`. -/
def check_consistency (text : String) (summary : Summary) : List QCIssue :=
  let critical_count := summary.critical_machine_count.getD 0
  let total_machines := summary.total_machines.getD 1
  let text_lower := pyLower text
  let urgency_terms := ["urgent", "critique", "immédiat", "priorit"]
  let i1 : List QCIssue :=
    if (critical_count : Rat) > (total_machines : Rat) * (2/10) ∧
        ¬ containsAny text_lower urgency_terms = true then
      [QCIssue.understatesCriticality critical_count]
    else []
  let avg_health := summary.avg_health_score.getD 100
  let health_terms := ["santé", "health", "état", "dégradé"]
  let i2 : List QCIssue :=
    if avg_health < 60 ∧ ¬ containsAny text_lower health_terms = true then
      [QCIssue.ignoresLowHealth avg_health]
    else []
  i1 ++ i2

/-- `QualityControlAgent._calculate_quality_score`. -/
def calculate_quality_score (text : String) (issues : List QCIssue)
    (warnings : List QCWarning) : Rat :=
  let score : Rat := 100
  let score := score - issues.length * 20
  let score := score - warnings.length * 5
  let length := text.length
  let score :=
    if 500 ≤ length ∧ length ≤ 3000 then score + 5
    else if length < 200 then score - 10
    else score
  max 0 (min 100 score)

/-- `QualityControlAgent.validate_llm_output`. -/
def validate_llm_output (llm_result : LLMResult) (summary : Summary) :
    QCResult :=
  let text := llm_result.text
  let status := llm_result.status
  let issues_len : List QCIssue :=
    if text.length < qc_min_length then [QCIssue.tooShort text.length] else []
  let warnings_len : List QCWarning :=
    if ¬ text.length < qc_min_length ∧ text.length > qc_max_length then
      [QCWarning.tooLong text.length]
    else []
  let warnings_fb : List QCWarning :=
    if status = "fallback" then [QCWarning.fallbackMode] else []
  let text_lower := pyLower text
  let missing_sections :=
    qc_required_sections.filter (fun s => !(strContains text_lower s))
  let warnings_sections : List QCWarning :=
    if missing_sections ≠ [] then [QCWarning.missingContent missing_sections]
    else []
  let found_forbidden :=
    qc_forbidden_terms.filter (fun t => strContains text_lower t)
  let warnings_forbidden : List QCWarning :=
    if found_forbidden ≠ [] then [QCWarning.concerningTerms found_forbidden]
    else []
  let issues := issues_len ++ check_consistency text summary
  let actionable_terms := ["recommand", "action", "priorit", "urgent", "immédiat"]
  let has_actionable := containsAny text_lower actionable_terms
  let warnings_actionable : List QCWarning :=
    if ¬ has_actionable = true then [QCWarning.notActionable] else []
  let warnings := warnings_len ++ warnings_fb ++ warnings_sections ++
    warnings_forbidden ++ warnings_actionable
  let is_valid := issues.isEmpty
  let retry_needed := (Decidable.decide (issues.length > 0)) && (Decidable.decide (status ≠ "fallback"))
  { valid := is_valid
    issues := issues
    warnings := warnings
    retry_needed := retry_needed
    quality_score := calculate_quality_score text issues warnings }

/-! ## KPIAgent (`agents/kpi_agent.py`), Health_Score and Risk_Category

Column values are `Rat`; `Option Rat` models pandas NaN.  `pd.concat(
risk_factors, axis=1).mean(axis=1)` skips NaN per row (`skipna=True`), which
the `filterMap` below mirrors; a row whose factors are all NaN gets NaN. -/

/-- One cleaned input row, restricted to the columns the Health_Score /
Risk_Category computation reads. -/
structure MachineRow where
  Machine_ID : String
  Temperature_C : Rat
  Vibration_mms : Rat
  Error_Codes_Last_30_Days : Rat
  deriving Repr, DecidableEq

/-- `series.min()`: NaN (`none`) on an empty column. -/
def col_min : List Rat → Option Rat
  | [] => none
  | x :: xs => some (xs.foldl min x)

/-- `series.max()`: NaN (`none`) on an empty column. -/
def col_max : List Rat → Option Rat
  | [] => none
  | x :: xs => some (xs.foldl max x)

/-- `np.clip(x, lo, hi)`. -/
def np_clip (x lo hi : Rat) : Rat := min (max x lo) hi

/-- `(v - min) / (max - min)` for one row of a column: NaN when the column
is constant (0/0 in pandas). -/
def minmax_risk (v : Rat) (mn mx : Option Rat) : Option Rat :=
  match mn, mx with
  | some a, some b => if b - a = 0 then none else some ((v - a) / (b - a))
  | _, _ => none

/-- `df[col] / df[col].max()` for one row: NaN when the max is 0 (0/0). -/
def max_scaled_risk (v : Rat) (mx : Option Rat) : Option Rat :=
  match mx with
  | some b => if b = 0 then none else some (v / b)
  | none => none

/-- The per-row risk factors of `compute_kpis` step 7 (temperature,
vibration, error codes; all three columns present). -/
def risk_factors (batch : List MachineRow) (r : MachineRow) : List (Option Rat) :=
  [ minmax_risk r.Temperature_C (col_min (batch.map (·.Temperature_C)))
      (col_max (batch.map (·.Temperature_C)))
  , minmax_risk r.Vibration_mms (col_min (batch.map (·.Vibration_mms)))
      (col_max (batch.map (·.Vibration_mms)))
  , max_scaled_risk r.Error_Codes_Last_30_Days
      (col_max (batch.map (·.Error_Codes_Last_30_Days))) ]

/-- `df['Health_Score'] = np.clip(100 * (1 - mean(risk_factors)), 0, 100)`
for one row; the row-wise mean skips NaN factors and is NaN when every
factor is NaN. -/
def health_score (batch : List MachineRow) (r : MachineRow) : Option Rat :=
  let vals := (risk_factors batch r).filterMap id
  if vals = [] then none
  else some (np_clip (100 * (1 - vals.sum / vals.length)) 0 100)

/-- `pd.cut(health, bins=[0, 30, 60, 80, 100], labels=[...])`: right-closed
intervals `(0,30], (30,60], (60,80], (80,100]`; values outside, and NaN,
get no category. -/
def risk_category (h : Option Rat) : Option String :=
  match h with
  | none => none
  | some x =>
    if 0 < x ∧ x ≤ 30 then some "Critical"
    else if 30 < x ∧ x ≤ 60 then some "High"
    else if 60 < x ∧ x ≤ 80 then some "Medium"
    else if 80 < x ∧ x ≤ 100 then some "Low"
    else none

/-- The binning rule as the spec states it (inclusive on the lower bound):
`[0,30) → Critical, [30,60) → High, [60,80) → Medium, [80,100] → Low`.
Stated only to be compared against `risk_category`. -/
def risk_category_spec_lower (h : Option Rat) : Option String :=
  match h with
  | none => none
  | some x =>
    if 0 ≤ x ∧ x < 30 then some "Critical"
    else if 30 ≤ x ∧ x < 60 then some "High"
    else if 60 ≤ x ∧ x < 80 then some "Medium"
    else if 80 ≤ x ∧ x ≤ 100 then some "Low"
    else none

/-! ## AnomalyDetectorAgent (`agents/anomaly_detector.py`)

`series.quantile(q)` is numpy linear interpolation over the sorted non-NaN
values. -/

/-- One KPI-enriched row, restricted to the columns `detect_anomalies`
reads.  `Energy_Efficiency` is `Option` because `compute_kpis` sets it to
NaN when `Operational_Hours = 0`. -/
structure DetectRow where
  Machine_ID : String
  Temperature_C : Rat
  Vibration_mms : Rat
  Energy_Efficiency : Option Rat
  Utilization_Rate : Rat
  Sound_dB : Rat
  Last_Maintenance_Days_Ago : Rat
  Error_Codes_Last_30_Days : Rat
  AI_Override_Rate : Rat
  deriving Repr, DecidableEq

/-- Insert into a sorted list (ascending). -/
def insert_sorted (x : Rat) : List Rat → List Rat
  | [] => [x]
  | y :: ys => if x ≤ y then x :: y :: ys else y :: insert_sorted x ys

/-- Insertion sort, ascending. -/
def sort_rats (xs : List Rat) : List Rat := xs.foldr insert_sorted []

/-- `series.quantile(q)`: sort the values, take position `q * (n - 1)` with
linear interpolation; NaN (`none`) on an empty series. -/
def pandas_quantile (xs : List Rat) (q : Rat) : Option Rat :=
  match sort_rats xs with
  | [] => none
  | s =>
    let n := s.length
    let pos : Rat := q * ((n : Rat) - 1)
    let f : Nat := pos.floor.toNat
    let lo := s.getD f 0
    let hi := s.getD (f + 1) lo
    some (lo + (pos - (f : Rat)) * (hi - lo))

/-- `value > threshold` where the threshold may be NaN: any comparison with
NaN is false in pandas. -/
def opt_gt (v : Rat) (t : Option Rat) : Bool :=
  match t with
  | some x => Decidable.decide (x < v)
  | none => false

/-- Machines whose `col` value strictly exceeds the threshold, in batch
order, as `df[df[col] > threshold]['Machine_ID'].tolist()`. -/
def above (batch : List DetectRow) (col : DetectRow → Rat) (t : Option Rat) :
    List String :=
  (batch.filter (fun r => opt_gt (col r) t)).map (·.Machine_ID)

/-- `self.thresholds['percentile_high']`. -/
def percentile_high : Rat := 95/100

/-- `self.thresholds['percentile_low']` (configured but never used). -/
def percentile_low : Rat := 5/100

/-- `AnomalyDetectorAgent.detect_anomalies`, category lists.  All monitored
columns are present; the error-rate category uses the literal `0.9`
quantile from the source, not `percentile_high`. -/
def detect_anomalies (batch : List DetectRow) : Anomalies :=
  let high_temperature := above batch (·.Temperature_C)
    (pandas_quantile (batch.map (·.Temperature_C)) percentile_high)
  let high_vibration := above batch (·.Vibration_mms)
    (pandas_quantile (batch.map (·.Vibration_mms)) percentile_high)
  let energy_threshold :=
    pandas_quantile ((batch.map (·.Energy_Efficiency)).filterMap id)
      percentile_high
  let energy_spikes :=
    ((batch.filter (fun r =>
        match r.Energy_Efficiency with
        | some v => opt_gt v energy_threshold
        | none => false)).map (·.Machine_ID))
  let zero_utilization :=
    (batch.filter (fun r => Decidable.decide (r.Utilization_Rate = 0))).map (·.Machine_ID)
  let very_low_utilization :=
    (batch.filter (fun r =>
      Decidable.decide (0 < r.Utilization_Rate ∧ r.Utilization_Rate < 1/10))).map
      (·.Machine_ID)
  let high_sound := above batch (·.Sound_dB)
    (pandas_quantile (batch.map (·.Sound_dB)) percentile_high)
  let maintenance_overdue := above batch (·.Last_Maintenance_Days_Ago)
    (some 180)
  let maintenance_critical := above batch (·.Last_Maintenance_Days_Ago)
    (some 365)
  let high_error_rate := above batch (·.Error_Codes_Last_30_Days)
    (pandas_quantile (batch.map (·.Error_Codes_Last_30_Days)) (9/10))
  let high_ai_override := above batch (·.AI_Override_Rate)
    (pandas_quantile (batch.map (·.AI_Override_Rate)) (95/100))
  let all_lists := high_temperature ++ high_vibration ++ energy_spikes ++
    zero_utilization ++ very_low_utilization ++ high_sound ++
    maintenance_overdue ++ maintenance_critical ++ high_error_rate ++
    high_ai_override
  let multi_factor_critical :=
    all_lists.eraseDups.filter (fun m => Decidable.decide (3 ≤ all_lists.count m))
  { high_temperature := high_temperature
    high_vibration := high_vibration
    energy_spikes := energy_spikes
    zero_utilization := zero_utilization
    very_low_utilization := very_low_utilization
    high_sound := high_sound
    maintenance_overdue := maintenance_overdue
    maintenance_critical := maintenance_critical
    high_error_rate := high_error_rate
    high_ai_override := high_ai_override
    multi_factor_critical := multi_factor_critical }

/-- The per-category severity tags written into `anomaly_details` by
`detect_anomalies` (one field per category that carries a severity). -/
structure AnomalyDetails where
  sev_high_temperature : String
  sev_high_vibration : String
  sev_energy_spikes : String
  sev_zero_utilization : String
  sev_high_sound : String
  sev_maintenance_overdue : String
  sev_high_error_rate : String
  sev_high_ai_override : String
  deriving Repr, DecidableEq

/-- The severity entries of `anomaly_details`, as computed in
`detect_anomalies` from the category lists. -/
def anomaly_details (batch : List DetectRow) : AnomalyDetails :=
  let a := detect_anomalies batch
  { sev_high_temperature :=
      if a.high_temperature.length > 5 then "HIGH" else "MEDIUM"
    sev_high_vibration :=
      if a.high_vibration.length > 5 then "HIGH" else "MEDIUM"
    sev_energy_spikes := "MEDIUM"
    sev_zero_utilization :=
      if a.zero_utilization ≠ [] then "CRITICAL" else "OK"
    sev_high_sound := "MEDIUM"
    sev_maintenance_overdue :=
      if a.maintenance_critical.length > 0 then "HIGH" else "MEDIUM"
    sev_high_error_rate :=
      if a.high_error_rate.length > 3 then "HIGH" else "MEDIUM"
    sev_high_ai_override := "MEDIUM" }

/-- The severity rule as the spec states it, for a category list:
`> 5` machines means HIGH else MEDIUM, except `zero_utilization` which is
CRITICAL when non-empty and OK when empty.  Stated only to be compared
against `anomaly_details`. -/
def severity_spec (category : String) (members : List String) : String :=
  if category = "zero_utilization" then
    if members ≠ [] then "CRITICAL" else "OK"
  else if members.length > 5 then "HIGH" else "MEDIUM"

/-! ## DecisionAgent (`agents/decision.py`) -/

structure Decision where
  action : String
  priority : String
  category : String
  impact : String
  deriving Repr, DecidableEq

structure DecisionRecord where
  priority : String
  decisions : List Decision
  action_needed : Bool
  risk_factor_msgs : List String
  deriving Repr, DecidableEq

/-- Optional reasoning-agent output, as read by `decide`. -/
structure ReasoningView where
  confidence : String
  deriving Repr, DecidableEq

/-- Optional debate-agent output, as read by `decide`. -/
structure DebateView where
  consensus : Bool
  deriving Repr, DecidableEq

/-- Optional planning-agent output, as read by `decide`. -/
structure PlanView where
  phases : Nat
  deriving Repr, DecidableEq

/-- The `priority_order` map of `decide`: P1 to 0, P2 to 1, P3 to 2,
anything else to 99. -/
def priority_order (p : String) : Nat :=
  if p = "P1" then 0 else if p = "P2" then 1 else if p = "P3" then 2 else 99

/-- Stable insert for `list.sort(key=...)`: a new element goes after the
existing elements whose key is less than or equal to its own. -/
def insert_decision (x : Decision) : List Decision → List Decision
  | [] => [x]
  | y :: ys =>
    if priority_order y.priority ≤ priority_order x.priority then
      y :: insert_decision x ys
    else x :: y :: ys

/-- `decisions.sort(key=lambda x: priority_order...)`: Python sort is
stable; insertion in list order preserves ties. -/
def sort_decisions (l : List Decision) : List Decision :=
  l.foldl (fun acc x => insert_decision x acc) []

/-- `'NORMAL' < 'HIGH' < 'URGENT'` as a rank, for monotonicity statements. -/
def prio_rank (p : String) : Nat :=
  if p = "URGENT" then 2 else if p = "HIGH" then 1 else 0

/-- The successive values taken by the `priority` variable in
`DecisionAgent.decide`, in source order: start, after the critical-machine
rule, after the temperature rule, after the maintenance-overdue rule, after
the LLM-risk-keyword rule, after the health-score rule (= final value). -/
def decide_priority_trace (summary : Summary) (anomalies : Anomalies)
    (llm_result : LLMResult) : List String :=
  let total_machines := summary.total_machines.getD 1
  let critical_count := summary.critical_machine_count.getD 0
  let critical_share : Rat := (critical_count : Rat) / (total_machines : Rat)
  let p0 := "NORMAL"
  let p1 := if critical_share > 30/100 then "URGENT" else p0
  let high_temp_count := anomalies.high_temperature.length
  let p2 := if high_temp_count > 5 then "URGENT" else p1
  let maint_overdue := anomalies.maintenance_overdue.length
  let p3 :=
    if (maint_overdue : Rat) > (total_machines : Rat) * (20/100) ∧
        p2 ≠ "URGENT" then "HIGH"
    else p2
  let llm_text := pyLower llm_result.text
  let p4 :=
    if containsAny llm_text ["risque majeur", "danger", "urgence", "critique"]
        = true ∧ p3 = "NORMAL" then "HIGH"
    else p3
  let avg_health := summary.avg_health_score.getD 100
  let p5 := if avg_health < 50 then "URGENT" else p4
  [p0, p1, p2, p3, p4, p5]

/-- `DecisionAgent.decide`.  `critical_count / total_machines` raises
`ZeroDivisionError` in Python when `total_machines` is 0, hence the
`Except`.  Decision `action` strings are elided to fixed category markers;
their `priority`, `category` and `impact` fields are the source constants. -/
def decide (summary : Summary) (anomalies : Anomalies)
    (llm_result : LLMResult) (qc_result : QCResult)
    (reasoning_result : Option ReasoningView := none)
    (debate_result : Option DebateView := none)
    (plan_result : Option PlanView := none) :
    Except String DecisionRecord :=
  let total_machines := summary.total_machines.getD 1
  if total_machines = 0 then .error "ZeroDivisionError" else
  let critical_count := summary.critical_machine_count.getD 0
  let critical_share : Rat := (critical_count : Rat) / (total_machines : Rat)
  let d1 : List Decision :=
    if critical_share > 30/100 then
      [⟨"MAINTENANCE MASSIVE requise", "P1", "maintenance", "HIGH"⟩]
    else []
  let r1 : List String :=
    if critical_share > 30/100 then ["Critical machine share"] else []
  let high_temp_count := anomalies.high_temperature.length
  let d2 : List Decision :=
    if high_temp_count > 5 then
      [⟨"Intervention refroidissement urgente", "P1", "safety", "HIGH"⟩]
    else if high_temp_count > 0 then
      [⟨"Surveiller températures", "P2", "monitoring", "MEDIUM"⟩]
    else []
  let r2 : List String :=
    if high_temp_count > 5 then ["High temperature anomalies"] else []
  let high_vib_count := anomalies.high_vibration.length
  let d3 : List Decision :=
    if high_vib_count > 3 then
      [⟨"Diagnostic vibrations requis", "P2", "diagnostic", "MEDIUM"⟩]
    else []
  let r3 : List String :=
    if high_vib_count > 3 then ["Vibration anomalies"] else []
  let zero_util := anomalies.zero_utilization
  let d4 : List Decision :=
    if zero_util.length > 0 then
      [⟨"Vérifier machines arrêtées", "P2", "operations", "MEDIUM"⟩]
    else []
  let maint_overdue := anomalies.maintenance_overdue.length
  let d5 : List Decision :=
    if (maint_overdue : Rat) > (total_machines : Rat) * (20/100) then
      [⟨"Planifier maintenance urgente", "P1", "maintenance", "HIGH"⟩]
    else if maint_overdue > 0 then
      [⟨"Programmer maintenance", "P3", "maintenance", "LOW"⟩]
    else []
  let d6 : List Decision :=
    if qc_result.valid = false then
      [⟨"Analyse LLM nécessite vérification manuelle", "P3", "quality", "LOW"⟩]
    else []
  let llm_text := pyLower llm_result.text
  let kw := containsAny llm_text ["risque majeur", "danger", "urgence", "critique"]
  let d7 : List Decision :=
    if kw = true then
      [⟨"Audit approfondi recommandé", "P2", "audit", "MEDIUM"⟩]
    else []
  let d8 : List Decision :=
    match reasoning_result with
    | some r =>
      if r.confidence = "HIGH" then
        [⟨"Recommandations du raisonnement IA validées", "P2",
          "ai_recommendation", "MEDIUM"⟩]
      else []
    | none => []
  let d9 : List Decision :=
    match debate_result with
    | some d =>
      if d.consensus then
        [⟨"Intégrer les conclusions du débat", "P2", "strategy", "MEDIUM"⟩]
      else []
    | none => []
  let d10 : List Decision :=
    match plan_result with
    | some p =>
      if p.phases > 0 then
        [⟨"Suivre le plan", "P2", "planning", "HIGH"⟩]
      else []
    | none => []
  let avg_health := summary.avg_health_score.getD 100
  let d11 : List Decision :=
    if avg_health < 50 then
      [⟨"Alerte santé globale du parc", "P1", "health", "HIGH"⟩]
    else []
  let decisions := sort_decisions
    (d1 ++ d2 ++ d3 ++ d4 ++ d5 ++ d6 ++ d7 ++ d8 ++ d9 ++ d10 ++ d11)
  let priority :=
    (decide_priority_trace summary anomalies llm_result).getLast!
  .ok
    { priority := priority
      decisions := decisions
      action_needed := Decidable.decide (priority = "URGENT" ∨ priority = "HIGH")
      risk_factor_msgs := r1 ++ r2 ++ r3 }

/-! ## FinalValidationAgent (`agents/final_validation.py`) -/

inductive FVIssue where
  | tooShort (len : Nat)
  | missingSections (sections : List String)
  | actionWithoutDecisions
  deriving Repr, DecidableEq

inductive FVWarning where
  | multipleP1NotUrgent (count : Nat)
  | placeholders (found : List String)
  | unbalancedBoxes
  | unbalancedTables
  | excessiveBlankLines
  | missingTimestamp
  | unbalancedSections (found : Nat)
  deriving Repr, DecidableEq

structure FVResult where
  valid : Bool
  issues : List FVIssue
  warnings : List FVWarning
  deriving Repr, DecidableEq

/-- `self.required_sections`. -/
def required_sections : List String :=
  ["KPI", "ANOMALIES", "DÉCISIONS", "TRAÇABILITÉ"]

/-- `self.min_requirements['min_length']`. -/
def fv_min_length : Nat := 1000

/-- `placeholder_markers`. -/
def placeholder_markers : List String :=
  ["[TODO]", "[PLACEHOLDER]", "[INSERT]", "N/A", "null", "undefined"]

/-- `FinalValidationAgent._check_format`. -/
def check_format (report : String) : List FVWarning :=
  let w1 : List FVWarning :=
    if report.data.count '╔' ≠ report.data.count '╚' then
      [FVWarning.unbalancedBoxes]
    else []
  let w2 : List FVWarning :=
    if report.data.count '┌' ≠ report.data.count '└' then
      [FVWarning.unbalancedTables]
    else []
  let w3 : List FVWarning :=
    if strContains report "\n\n\n\n" then [FVWarning.excessiveBlankLines]
    else []
  w1 ++ w2 ++ w3

/-- `FinalValidationAgent.validate_report`. -/
def validate_report (report : String) (decisions : DecisionRecord) :
    FVResult :=
  let issues1 : List FVIssue :=
    if report.length < fv_min_length then [FVIssue.tooShort report.length]
    else []
  let report_upper := pyUpper report
  let missing_sections :=
    required_sections.filter (fun s => !(strContains report_upper s))
  let issues2 : List FVIssue :=
    if missing_sections ≠ [] then [FVIssue.missingSections missing_sections]
    else []
  let decision_list := decisions.decisions
  let issues3 : List FVIssue :=
    if decisions.action_needed = true ∧ decision_list.length = 0 then
      [FVIssue.actionWithoutDecisions]
    else []
  let p1_count :=
    (decision_list.filter (fun d => d.priority = "P1")).length
  let warnings1 : List FVWarning :=
    if 3 ≤ p1_count ∧ decisions.priority ≠ "URGENT" then
      [FVWarning.multipleP1NotUrgent p1_count]
    else []
  let found_placeholders :=
    placeholder_markers.filter (fun p => strContains report p)
  let warnings2 : List FVWarning :=
    if found_placeholders ≠ [] then [FVWarning.placeholders found_placeholders]
    else []
  let warnings3 := check_format report
  let warnings4 : List FVWarning :=
    if ¬ strContains report "2024" ∧ ¬ strContains report "2025" then
      [FVWarning.missingTimestamp]
    else []
  let sections_found :=
    (required_sections.filter (fun s => strContains report_upper s)).length
  let warnings5 : List FVWarning :=
    if (sections_found : Rat) < (required_sections.length : Rat) * (75/100) then
      [FVWarning.unbalancedSections sections_found]
    else []
  let issues := issues1 ++ issues2 ++ issues3
  let warnings := warnings1 ++ warnings2 ++ warnings3 ++ warnings4 ++ warnings5
  { valid := issues.isEmpty
    issues := issues
    warnings := warnings }

/-! ## LLMInsightAgent (`agents/llm_agent.py`)

The external generation capability is modelled per call site:
`none` means no client is configured, `some (.ok t)` a call returning `t`,
`some (.error e)` a call that raises.  Python number formatting is embedded
with round-half-up decimal rendering; no theorem depends on digit-level
formatting fidelity. -/

/-- Zero-padded decimal digits. -/
def pad_digits (d : Nat) (fp : Nat) : String :=
  let s := toString fp
  String.mk (List.replicate (d - s.length) '0') ++ s

/-- Fixed-point rendering of a rational with `d` decimals. -/
def fmt_fixed (d : Nat) (x : Rat) : String :=
  let base : Int := (10 : Int) ^ d
  let m : Int := (x * (base : Rat) + 1/2).floor
  let ip := m / base
  let fp := (m % base).natAbs
  toString ip ++ (if d = 0 then "" else "." ++ pad_digits d fp)

/-- Python `.1%` formatting. -/
def fmt_pct1 (x : Rat) : String := fmt_fixed 1 (x * 100) ++ "%"

/-- The 59-character separator line of the fallback template. -/
def sep_line : String := String.mk (List.replicate 59 '═')

/-- The `severity` label computed at the top of
`_generate_fallback_insights`. -/
def fallback_severity (total critical : Nat) (health : Rat) : String :=
  if (critical : Rat) > (total : Rat) * (30/100) ∨ health < 50 then "CRITIQUE"
  else if (critical : Rat) > (total : Rat) * (15/100) ∨ health < 70 then
    "ATTENTION REQUISE"
  else "NORMAL"

/-- The problem lines of `_generate_fallback_insights`. -/
def fallback_problems (anomalies : Anomalies) : List String :=
  (if anomalies.high_temperature.length > 0 then
    ["1. SURCHAUFFE: " ++ toString anomalies.high_temperature.length ++
      " machines avec température anormale"] else []) ++
  (if anomalies.high_vibration.length > 0 then
    ["2. VIBRATIONS: " ++ toString anomalies.high_vibration.length ++
      " machines avec vibrations excessives"] else []) ++
  (if anomalies.maintenance_overdue.length > 0 then
    ["3. MAINTENANCE: " ++ toString anomalies.maintenance_overdue.length ++
      " machines en retard de maintenance"] else []) ++
  (if anomalies.zero_utilization.length > 0 then
    ["4. ARRÊT: " ++ toString anomalies.zero_utilization.length ++
      " machines à l\x27arrêt complet"] else [])

/-- The deterministic fallback text, for a nonzero machine count (the text
is a function of the numeric summary and the anomaly counts only). -/
def fallback_text (summary : Summary) (anomalies : Anomalies) : String :=
  let total := summary.total_machines.getD 0
  let critical := summary.critical_machine_count.getD 0
  let utilization := summary.avg_utilization.getD 0
  let health := summary.avg_health_score.getD 50
  let severity := fallback_severity total critical health
  let critical_pct : Rat := (critical : Rat) / (total : Rat) * 100
  let problems := fallback_problems anomalies
  let problems_block :=
    if problems ≠ [] then String.intercalate "\n" problems
    else "Aucun problème majeur détecté."
  "\n" ++ sep_line ++ "\n" ++
  "         ANALYSE DE PERFORMANCE INDUSTRIELLE\n" ++
  "                   (Mode Simplifié)\n" ++
  sep_line ++ "\n\n" ++
  "📊 DIAGNOSTIC GLOBAL\n--------------------\n" ++
  "État du parc: " ++ severity ++ "\n" ++
  "- " ++ toString total ++ " machines analysées\n" ++
  "- " ++ toString critical ++ " machines en situation critique (" ++
    fmt_fixed 1 critical_pct ++ "% du parc)\n" ++
  "- Taux d\x27utilisation moyen: " ++ fmt_pct1 utilization ++ "\n" ++
  "- Score de santé moyen: " ++ fmt_fixed 1 health ++ "/100\n\n" ++
  "🚨 PROBLÈMES IDENTIFIÉS\n-----------------------\n" ++
  problems_block ++
  "\n\n⚡ ACTIONS RECOMMANDÉES\n----------------------\n" ++
  "1. [URGENTE] Inspecter immédiatement les machines avec anomalies thermiques\n" ++
  "2. [HAUTE] Planifier la maintenance des " ++
    toString anomalies.maintenance_overdue.length ++
    " machines en retard\n" ++
  "3. [HAUTE] Diagnostiquer les machines avec vibrations anormales\n" ++
  "4. [MOYENNE] Investiguer les causes des faibles taux d\x27utilisation\n" ++
  "5. [MOYENNE] Mettre en place un monitoring renforcé\n\n" ++
  "📈 INDICATEURS À SURVEILLER\n---------------------------\n" ++
  "• Évolution du taux d\x27utilisation (objectif: >70%)\n" ++
  "• Nombre de machines critiques (objectif: <10%)\n" ++
  "• Délai moyen de maintenance\n" ++
  "• Consommation énergétique par machine\n\n" ++
  "💡 CONCLUSION\n-------------\n" ++
  "Le parc nécessite une attention " ++
    (if severity = "CRITIQUE" then "IMMÉDIATE" else "soutenue") ++ ".\n" ++
  "Priorité: adresser les " ++ toString critical ++
    " machines critiques pour restaurer la capacité de production.\n" ++
  "Impact estimé: amélioration potentielle de " ++
    fmt_fixed 0 (min 20 ((critical : Rat) / (total : Rat) * 50)) ++
    "% de la productivité.\n\n" ++
  sep_line ++ "\n" ++
  "                    Rapport généré automatiquement\n" ++
  sep_line ++ "\n"

/-- `LLMInsightAgent._generate_fallback_insights`: the f-string divides
`critical / total`, so a machine count of zero raises `ZeroDivisionError`. -/
def generate_fallback_insights (summary : Summary) (anomalies : Anomalies) :
    Except String String :=
  if summary.total_machines.getD 0 = 0 then .error "ZeroDivisionError"
  else .ok (fallback_text summary anomalies)

/-- `LLMInsightAgent.interpret`.  Returns the result (or the uncaught
exception) paired with the number of external generation calls made.
With a client, exactly one generation call happens; a raising call is
caught and answered from the fallback; without a client the fallback is
used directly.  In both fallback paths a `ZeroDivisionError` from the
fallback itself escapes `interpret` (in the client path the `except`
handler re-runs the fallback, which raises again). -/
def interpret (client : Option (Except String String)) (summary : Summary)
    (anomalies : Anomalies) : Except String LLMResult × Nat :=
  match client with
  | some (.ok t) =>
    (.ok { text := t, status := "success",
           model_name := some "gemini-2.5-flash", error_msg := none }, 1)
  | some (.error e) =>
    (match generate_fallback_insights summary anomalies with
     | .ok fb => .ok { text := fb, status := "fallback",
                       model_name := none, error_msg := some e }
     | .error err => .error err, 1)
  | none =>
    (match generate_fallback_insights summary anomalies with
     | .ok fb => .ok { text := fb, status := "fallback",
                       model_name := some "fallback", error_msg := none }
     | .error err => .error err, 0)

/-! ## SystemOrchestrator (`orchestrator.py`)

The data-producing collaborators of the orchestrator (CSV loading, the two
dataframe validators, the KPI/analysis dataframes, the report text) are
supplied through `PipelineEnv`, so every theorem below quantifies over
their outputs; the gate logic, the two retry loops, the status transitions
and the traceability history are translated from `run_pipeline`.  On the
outermost `except` path the model keeps the stages completed so far and
records the error, dropping the partially filled result keys that no claim
reads. -/

/-- Output dict of `validate_raw_data` / `validate_processed_data`, as the
orchestrator consumes it. -/
structure VStageResult where
  valid : Bool
  issues : List String
  deriving Repr, DecidableEq

/-- The `details` payload of a `_record_validation` entry. -/
inductive VDetails where
  | info
  | raw (issues : List String)
  | qc (issues : List QCIssue)
  | fv (issues : List FVIssue)
  deriving Repr, DecidableEq

/-- One entry of `self.validation_history`. -/
structure VEntry where
  agent : String
  valid : Bool
  message : String
  details : VDetails
  deriving Repr, DecidableEq

/-- One element of `results["errors"]`. -/
inductive PipelineError where
  | validation (issues : List String)
  | pipeline (message : String)
  deriving Repr, DecidableEq

/-- The `results` dict of `run_pipeline`; keys the pipeline has not set are
`none`. -/
structure PipelineResults where
  status : String
  stages_completed : List String
  errors : List PipelineError
  report : Option String := none
  llm_insight : Option LLMResult := none
  quality_control : Option QCResult := none
  decisions : Option DecisionRecord := none
  final_validation : Option FVResult := none
  validation_history : Option (List VEntry) := none
  deriving Repr

/-- Environment of one pipeline run: the outputs of the data-producing
collaborators.  `gen_at i` is the external text-generation capability as
observed by the `i`-th LLM attempt. -/
structure PipelineEnv where
  row_count : Nat
  validation1 : VStageResult
  validation2 : VStageResult
  summary : Summary
  anomalies : Anomalies
  gen_at : Nat → Option (Except String String)
  report_text : String

/-- `self.max_retries`. -/
def max_retries : Nat := 3

/-- Stage 11 retry loop (`while retry_count < self.max_retries`): interpret,
validate, record; break when valid or retry not advised.  Returns the last
`llm_result` and `qc_result` plus the recorded history entries; an
exception from `interpret` escapes the loop. -/
def llm_retry_loop (env : PipelineEnv) :
    Nat → Nat → Except String (Option LLMResult × Option QCResult × List VEntry)
  | _, 0 => .ok (none, none, [])
  | i, fuel + 1 =>
    match (interpret (env.gen_at i) env.summary env.anomalies).1 with
    | .error e => .error e
    | .ok llm =>
      let qc := validate_llm_output llm env.summary
      let entry : VEntry :=
        ⟨"QualityControl", qc.valid,
          "LLM validation (attempt " ++ toString (i + 1) ++ ")", .qc qc.issues⟩
      if qc.valid || !qc.retry_needed then .ok (some llm, some qc, [entry])
      else
        match llm_retry_loop env (i + 1) fuel with
        | .error e => .error e
        | .ok (l, q, es) =>
          .ok ((l <|> some llm), (q <|> some qc), entry :: es)

/-- Stage 14 retry loop (`while final_retry < self.max_retries`): the same
report and decision record are re-validated each attempt. -/
def final_retry_loop (report : String) (dec : DecisionRecord) :
    Nat → Nat → Option FVResult × List VEntry
  | _, 0 => (none, [])
  | i, fuel + 1 =>
    let fv := validate_report report dec
    let entry : VEntry :=
      ⟨"FinalValidator", fv.valid,
        "Final validation (attempt " ++ toString (i + 1) ++ ")", .fv fv.issues⟩
    if fv.valid then (some fv, [entry])
    else
      let rest := final_retry_loop report dec (i + 1) fuel
      ((rest.1 <|> some fv), entry :: rest.2)

/-- `SystemOrchestrator.run_pipeline`. -/
def run_pipeline (env : PipelineEnv) (enable_reasoning : Bool := true)
    (enable_debate : Bool := true) (enable_planning : Bool := true) :
    PipelineResults :=
  let h0 : List VEntry :=
    [⟨"DataCollector", true,
      "Loaded " ++ toString env.row_count ++ " rows", .info⟩]
  let stages0 := ["data_collection"]
  let h1 := h0 ++
    [⟨"Validator", env.validation1.valid, "Raw data validation",
      .raw env.validation1.issues⟩]
  if env.validation1.valid = false then
    { status := "failed", stages_completed := stages0,
      errors := [.validation env.validation1.issues] }
  else
    let stages1 := stages0 ++ ["raw_validation", "preprocessing"]
    let h2 := h1 ++
      [⟨"Validator", env.validation2.valid, "Post-processing validation",
        .raw env.validation2.issues⟩]
    let stages2 := stages1 ++
      ["post_validation", "kpi_calculation", "analysis", "anomaly_detection"]
      ++ (if enable_reasoning then ["reasoning"] else [])
      ++ (if enable_debate then ["debate"] else [])
      ++ (if enable_planning then ["planning"] else [])
    match llm_retry_loop env 0 max_retries with
    | .error e =>
      { status := "error", stages_completed := stages2,
        errors := [.pipeline e] }
    | .ok (llm?, qc?, hloop) =>
      let h3 := h2 ++ hloop
      let stages3 := stages2 ++ ["llm_analysis"]
      match llm?, qc? with
      | some llm, some qc =>
        (match decide env.summary env.anomalies llm qc with
         | .error e =>
           { status := "error", stages_completed := stages3,
             errors := [.pipeline e] }
         | .ok dec =>
           let stages4 := stages3 ++ ["decision"]
           let report := env.report_text
           let stages5 := stages4 ++ ["report_generation"]
           let fin := final_retry_loop report dec 0 max_retries
           let h4 := h3 ++ fin.2
           let stages6 := stages5 ++ ["final_validation"]
           { status := "success", stages_completed := stages6,
             errors := [], report := some report,
             llm_insight := some llm, quality_control := some qc,
             decisions := some dec, final_validation := fin.1,
             validation_history := some h4 })
      | _, _ =>
        { status := "error", stages_completed := stages3,
          errors := [.pipeline "AttributeError"] }

/-- The three history entries recorded before the LLM retry loop (data
collection, raw validation, post-processing validation). -/
def base_entries (env : PipelineEnv) : List VEntry :=
  [⟨"DataCollector", true, "Loaded " ++ toString env.row_count ++ " rows",
      .info⟩,
   ⟨"Validator", env.validation1.valid, "Raw data validation",
      .raw env.validation1.issues⟩,
   ⟨"Validator", env.validation2.valid, "Post-processing validation",
      .raw env.validation2.issues⟩]

/-! ## Concrete instances used by witnesses and counterexamples -/

/-- KPI row with constant sensor columns and a chosen error count. -/
def mkKRow (e : Rat) : MachineRow := ⟨"X", 50, 5, e⟩

/-- Ten identical rows: every risk-factor column is degenerate (constant
sensors, all-zero error counts), so every risk factor is NaN. -/
def B5a : List MachineRow := List.replicate 10 (mkKRow 0)

/-- Ten rows whose sensors are constant and whose error counts make the
first row's health score exactly 30. -/
def B5b : List MachineRow := mkKRow 7 :: mkKRow 10 :: List.replicate 8 (mkKRow 0)

/-- Detector row with fixed unremarkable columns and a chosen error count. -/
def mkDRow (id : String) (e : Rat) : DetectRow := ⟨id, 50, 5, none, 1/2, 60, 10, e, 0⟩

/-- 21 machines M0..M20 with error counts 0..20: the 90th percentile of the
error column is 18, the 95th is 19. -/
def B6 : List DetectRow := (List.range 21).map (fun i => mkDRow ("M" ++ toString i) i)

/-- Detector row with fixed unremarkable columns and a chosen
days-since-maintenance value. -/
def mkMRow (id : String) (m : Rat) : DetectRow := ⟨id, 50, 5, none, 1/2, 60, m, 0, 0⟩

/-- Ten machines, one of which (M0) is 400 days past maintenance. -/
def B7 : List DetectRow :=
  mkMRow "M0" 400 :: (List.range 9).map (fun i => mkMRow ("N" ++ toString i) 10)

/-- A 1000-character report of `q`s: above the minimum length, balanced, no
placeholder markers, but no required section header. -/
def R_cex : String := String.mk (List.replicate 1000 'q')

/-- A report that contains every required section header, padded above the
minimum length. -/
def R_good : String :=
  String.mk (("KPI ANOMALIES DÉCISIONS TRAÇABILITÉ ").data ++ List.replicate 1000 'q')

/-- A decision record with nothing to act on. -/
def dec_empty : DecisionRecord := ⟨"NORMAL", [], false, []⟩

/-- Summary with zero machines (the `total_machines` key present and 0). -/
def s_zero : Summary := { total_machines := some 0 }

/-- A healthy ten-machine summary. -/
def s_pos : Summary :=
  { total_machines := some 10, critical_machine_count := some 2,
    avg_health_score := some 80, avg_utilization := some (1/2) }

/-- Summary whose average health score is below 50. -/
def s_low_health : Summary :=
  { total_machines := some 10, critical_machine_count := some 0,
    avg_health_score := some 40, avg_utilization := some (1/2) }

/-- An empty anomaly map. -/
def a_empty : Anomalies := {}

/-- A short successful LLM result with no risk keywords. -/
def llm_ok : LLMResult := { text := "ok", status := "success" }

/-- A passing quality-control result. -/
def qc_ok : QCResult :=
  { valid := true, issues := [], warnings := [], retry_needed := false,
    quality_score := 100 }

/-- The decision record `decide` produces from `s_low_health` with no
anomalies: only the health-alert rule fires. -/
def rec_low_health : DecisionRecord :=
  { priority := "URGENT"
    decisions := [⟨"Alerte santé globale du parc", "P1", "health", "HIGH"⟩]
    action_needed := true
    risk_factor_msgs := [] }

/-- Pipeline environment whose narrative validator fails persistently with
retry advised (the generated text is short and not in fallback mode) and
whose report validator fails persistently (the report text is empty). -/
def env0 : PipelineEnv :=
  { row_count := 10
    validation1 := ⟨true, []⟩
    validation2 := ⟨true, []⟩
    summary := s_pos
    anomalies := a_empty
    gen_at := fun _ => some (.ok "ok")
    report_text := "" }

/-- `env0` with a failing raw-data validation. -/
def env_hard_fail : PipelineEnv :=
  { env0 with validation1 := ⟨false, ["Insufficient data: 3 rows"]⟩ }

/-- `env0` with a failing post-processing validation. -/
def env_soft_fail : PipelineEnv :=
  { env0 with validation2 := ⟨false, ["NaN values persist after cleaning"]⟩ }

/-! ## Theorems -/

/-- **C3.**  For every narrative-validation call
`validate_llm_output(llm_result, summary)`, the returned `valid` field is
true iff the list of hard issues is empty, and the returned retry flag
`retry_needed` is true iff there is at least one hard issue and the
narrative's status is not `"fallback"`. -/
theorem C3_narrative_validation_gate (llm_result : LLMResult)
    (summary : Summary) :
    ((validate_llm_output llm_result summary).valid = true ↔
      (validate_llm_output llm_result summary).issues = []) ∧
    ((validate_llm_output llm_result summary).retry_needed = true ↔
      ((validate_llm_output llm_result summary).issues ≠ [] ∧
        llm_result.status ≠ "fallback")) := by
  unfold validate_llm_output
  constructor
  · simp [List.isEmpty_iff]
  · by_cases hl : llm_result.text.length < qc_min_length <;>
      by_cases hs : llm_result.status = "fallback" <;>
        simp [hl, hs, List.length_pos, List.isEmpty_iff]

/-- **C10.**  A row whose Health_Score is exactly 0 is assigned no
Risk_Category (the `pd.cut` bins are open on their lower edge), and every
Health_Score in `(0, 100]` is assigned exactly one of Critical, High,
Medium, Low. -/
theorem C10_zero_health_uncategorised :
    (∀ batch r, health_score batch r = some 0 →
      risk_category (health_score batch r) = none) ∧
    (∀ x : Rat, 0 < x → x ≤ 100 →
      ∃ c, risk_category (some x) = some c ∧
        (c = "Critical" ∨ c = "High" ∨ c = "Medium" ∨ c = "Low")) := by
  constructor
  · intro batch r h
    rw [h]
    norm_num [risk_category]
  · intro x h1 h2
    simp only [risk_category]
    split_ifs with h3 h4 h5 h6
    · exact ⟨"Critical", rfl, Or.inl rfl⟩
    · exact ⟨"High", rfl, Or.inr (Or.inl rfl)⟩
    · exact ⟨"Medium", rfl, Or.inr (Or.inr (Or.inl rfl))⟩
    · exact ⟨"Low", rfl, Or.inr (Or.inr (Or.inr rfl))⟩
    · exfalso
      have hx30 : 30 < x := by
        rcases not_and_or.mp h3 with h | h
        · exact absurd h1 h
        · exact lt_of_not_le h
      have hx60 : 60 < x := by
        rcases not_and_or.mp h4 with h | h
        · linarith
        · exact lt_of_not_le h
      have hx80 : 80 < x := by
        rcases not_and_or.mp h5 with h | h
        · linarith
        · exact lt_of_not_le h
      rcases not_and_or.mp h6 with h | h
      · linarith
      · exact h h2

/-- Witness for C10 at Health_Score 0 (a row of batch `B5b` whose every
risk factor is 1) and at Health_Score 50. -/
theorem C10_witness :
    risk_category (health_score B5b (mkKRow 10)) = none ∧
    ∃ c, risk_category (some (50 : Rat)) = some c ∧
      (c = "Critical" ∨ c = "High" ∨ c = "Medium" ∨ c = "Low") := by
  constructor
  · exact C10_zero_health_uncategorised.1 B5b (mkKRow 10)
      (by with_unfolding_all rfl)
  · exact C10_zero_health_uncategorised.2 50 (by norm_num) (by norm_num)

/-- `risk_category` hits `Critical` exactly on `(0, 30]`. -/
theorem risk_category_Critical_iff (x : Rat) :
    risk_category (some x) = some "Critical" ↔ 0 < x ∧ x ≤ 30 := by
  simp only [risk_category]
  split_ifs with h1 h2 h3 h4
  · exact iff_of_true rfl h1
  · exact iff_of_false (by decide) h1
  · exact iff_of_false (by decide) h1
  · exact iff_of_false (by decide) h1
  · exact iff_of_false (by decide) h1

/-- `risk_category` hits `High` exactly on `(30, 60]`. -/
theorem risk_category_High_iff (x : Rat) :
    risk_category (some x) = some "High" ↔ 30 < x ∧ x ≤ 60 := by
  simp only [risk_category]
  split_ifs with h1 h2 h3 h4
  · exact iff_of_false (by decide) (by rintro ⟨h30, -⟩; linarith [h1.2])
  · exact iff_of_true rfl h2
  · exact iff_of_false (by decide) h2
  · exact iff_of_false (by decide) h2
  · exact iff_of_false (by decide) h2

/-- `risk_category` hits `Medium` exactly on `(60, 80]`. -/
theorem risk_category_Medium_iff (x : Rat) :
    risk_category (some x) = some "Medium" ↔ 60 < x ∧ x ≤ 80 := by
  simp only [risk_category]
  split_ifs with h1 h2 h3 h4
  · exact iff_of_false (by decide) (by rintro ⟨h60, -⟩; linarith [h1.2])
  · exact iff_of_false (by decide) (by rintro ⟨h60, -⟩; linarith [h2.2])
  · exact iff_of_true rfl h3
  · exact iff_of_false (by decide) h3
  · exact iff_of_false (by decide) h3

/-- `risk_category` hits `Low` exactly on `(80, 100]`. -/
theorem risk_category_Low_iff (x : Rat) :
    risk_category (some x) = some "Low" ↔ 80 < x ∧ x ≤ 100 := by
  simp only [risk_category]
  split_ifs with h1 h2 h3 h4
  · exact iff_of_false (by decide) (by rintro ⟨h80, -⟩; linarith [h1.2])
  · exact iff_of_false (by decide) (by rintro ⟨h80, -⟩; linarith [h2.2])
  · exact iff_of_false (by decide) (by rintro ⟨h80, -⟩; linarith [h3.2])
  · exact iff_of_true rfl h4
  · exact iff_of_false (by decide) h4

/-- **C5**, corrected.  For every batch and member row whose Health_Score
is defined, the score lies in `[0, 100]` (the computation never raises);
Risk_Category is binned at the fixed edges 30/60/80 but inclusively on the
*upper* bound: `(0,30] → Critical, (30,60] → High, (60,80] → Medium,
(80,100] → Low`. -/
theorem C5_health_bounds_and_binning (batch : List MachineRow)
    (r : MachineRow) (x : Rat) (_hmem : r ∈ batch)
    (_hlen : 10 ≤ batch.length) (hx : health_score batch r = some x) :
    (0 ≤ x ∧ x ≤ 100) ∧
    (risk_category (some x) = some "Critical" ↔ 0 < x ∧ x ≤ 30) ∧
    (risk_category (some x) = some "High" ↔ 30 < x ∧ x ≤ 60) ∧
    (risk_category (some x) = some "Medium" ↔ 60 < x ∧ x ≤ 80) ∧
    (risk_category (some x) = some "Low" ↔ 80 < x ∧ x ≤ 100) := by
  have hb : 0 ≤ x ∧ x ≤ 100 := by
    simp only [health_score] at hx
    split at hx
    · exact absurd hx (by simp)
    · have hx' := Option.some.inj hx
      subst hx'
      unfold np_clip
      constructor
      · exact le_min (le_max_right _ _) (by norm_num)
      · exact min_le_right _ _
  exact ⟨hb, risk_category_Critical_iff x, risk_category_High_iff x,
    risk_category_Medium_iff x, risk_category_Low_iff x⟩

/-- Counterexample to C5 as stated: in `B5a` (all risk-factor columns
degenerate) the Health_Score is NaN, so it lies in no interval; in `B5b`
the first row's Health_Score is exactly 30 and is categorised `Critical`,
where binning inclusive on the lower bound would give `High`. -/
theorem C5_counterexample :
    health_score B5a (mkKRow 0) = none ∧
    B5b.length = 10 ∧ mkKRow 7 ∈ B5b ∧
    health_score B5b (mkKRow 7) = some 30 ∧
    risk_category (health_score B5b (mkKRow 7)) = some "Critical" ∧
    risk_category_spec_lower (health_score B5b (mkKRow 7)) = some "High" := by
  refine ⟨?_, ?_, ?_, ?_, ?_, ?_⟩
  · with_unfolding_all rfl
  · rfl
  · exact List.mem_cons_self _ _
  · with_unfolding_all rfl
  · with_unfolding_all rfl
  · with_unfolding_all rfl

/-- Witness for C5 on the ten-row batch `B5b` at the row with
Health_Score 30. -/
theorem C5_witness :
    (0 ≤ (30 : Rat) ∧ (30 : Rat) ≤ 100) ∧
    (risk_category (some (30 : Rat)) = some "Critical" ↔
      0 < (30 : Rat) ∧ (30 : Rat) ≤ 30) := by
  have h := C5_health_bounds_and_binning B5b (mkKRow 7) 30
    (List.mem_cons_self _ _) (by norm_num [B5b])
    (by with_unfolding_all rfl)
  exact ⟨h.1, h.2.1⟩

/-- Membership in a strict-threshold category. -/
theorem mem_above (batch : List DetectRow) (col : DetectRow → Rat)
    (t : Option Rat) (m : String) :
    m ∈ above batch col t ↔
      ∃ r ∈ batch, r.Machine_ID = m ∧ opt_gt (col r) t = true := by
  simp only [above, List.mem_map, List.mem_filter]
  constructor
  · rintro ⟨r, ⟨hr, hgt⟩, hid⟩
    exact ⟨r, hr, hid, hgt⟩
  · rintro ⟨r, hr, hid, hgt⟩
    exact ⟨r, ⟨hr, hgt⟩, hid⟩

/-- **C6**, corrected.  Membership in every anomaly category is a strict
comparison (`value > threshold`); the quantile-based thresholds are the
batch's 95th percentile for temperature, vibration, energy, sound and AI
override, but the 90th percentile (not the 95th) for the error-code
category; no category uses a 5th percentile: `zero_utilization` is an exact
equality test, `very_low_utilization` the fixed band `(0, 0.1)`, and the
maintenance categories the fixed day thresholds 180 and 365. -/
theorem C6_anomaly_thresholds (batch : List DetectRow) (m : String) :
    (m ∈ (detect_anomalies batch).high_temperature ↔
      ∃ r ∈ batch, r.Machine_ID = m ∧ opt_gt r.Temperature_C
        (pandas_quantile (batch.map (·.Temperature_C)) (95/100)) = true) ∧
    (m ∈ (detect_anomalies batch).high_vibration ↔
      ∃ r ∈ batch, r.Machine_ID = m ∧ opt_gt r.Vibration_mms
        (pandas_quantile (batch.map (·.Vibration_mms)) (95/100)) = true) ∧
    (m ∈ (detect_anomalies batch).high_sound ↔
      ∃ r ∈ batch, r.Machine_ID = m ∧ opt_gt r.Sound_dB
        (pandas_quantile (batch.map (·.Sound_dB)) (95/100)) = true) ∧
    (m ∈ (detect_anomalies batch).high_ai_override ↔
      ∃ r ∈ batch, r.Machine_ID = m ∧ opt_gt r.AI_Override_Rate
        (pandas_quantile (batch.map (·.AI_Override_Rate)) (95/100)) = true) ∧
    (m ∈ (detect_anomalies batch).energy_spikes ↔
      ∃ r ∈ batch, r.Machine_ID = m ∧ ∃ v, r.Energy_Efficiency = some v ∧
        opt_gt v (pandas_quantile
          ((batch.map (·.Energy_Efficiency)).filterMap id) (95/100)) = true) ∧
    (m ∈ (detect_anomalies batch).high_error_rate ↔
      ∃ r ∈ batch, r.Machine_ID = m ∧ opt_gt r.Error_Codes_Last_30_Days
        (pandas_quantile (batch.map (·.Error_Codes_Last_30_Days)) (9/10))
          = true) ∧
    (m ∈ (detect_anomalies batch).zero_utilization ↔
      ∃ r ∈ batch, r.Machine_ID = m ∧ r.Utilization_Rate = 0) ∧
    (m ∈ (detect_anomalies batch).very_low_utilization ↔
      ∃ r ∈ batch, r.Machine_ID = m ∧
        0 < r.Utilization_Rate ∧ r.Utilization_Rate < 1/10) ∧
    (m ∈ (detect_anomalies batch).maintenance_overdue ↔
      ∃ r ∈ batch, r.Machine_ID = m ∧ 180 < r.Last_Maintenance_Days_Ago) ∧
    (m ∈ (detect_anomalies batch).maintenance_critical ↔
      ∃ r ∈ batch, r.Machine_ID = m ∧ 365 < r.Last_Maintenance_Days_Ago) := by
  simp only [detect_anomalies, percentile_high]
  refine ⟨mem_above .., mem_above .., mem_above .., mem_above .., ?_, ?_, ?_,
    ?_, ?_, ?_⟩
  · simp only [List.mem_map, List.mem_filter]
    constructor
    · rintro ⟨r, ⟨hr, hgt⟩, hid⟩
      refine ⟨r, hr, hid, ?_⟩
      cases hv : r.Energy_Efficiency with
      | none => rw [hv] at hgt; exact absurd hgt (by simp)
      | some v => rw [hv] at hgt; exact ⟨v, rfl, hgt⟩
    · rintro ⟨r, hr, hid, v, hv, hgt⟩
      exact ⟨r, ⟨hr, by rw [hv]; exact hgt⟩, hid⟩
  · rw [mem_above]
  · simp only [List.mem_map, List.mem_filter]
    constructor
    · rintro ⟨r, ⟨hr, hz⟩, hid⟩
      exact ⟨r, hr, hid, of_decide_eq_true hz⟩
    · rintro ⟨r, hr, hid, hz⟩
      exact ⟨r, ⟨hr, decide_eq_true hz⟩, hid⟩
  · simp only [List.mem_map, List.mem_filter]
    constructor
    · rintro ⟨r, ⟨hr, hz⟩, hid⟩
      exact ⟨r, hr, hid, of_decide_eq_true hz⟩
    · rintro ⟨r, hr, hid, hz⟩
      exact ⟨r, ⟨hr, decide_eq_true hz⟩, hid⟩
  · rw [mem_above]
    simp [opt_gt]
  · rw [mem_above]
    simp [opt_gt]

/-- Counterexample to C6 as stated: in `B6` the 95th percentile of the
error-code column is 19, yet machine M19 (value 19, not above the 95th
percentile) is a member of `high_error_rate`, because the code uses the
90th percentile for that category. -/
theorem C6_counterexample :
    "M19" ∈ (detect_anomalies B6).high_error_rate ∧
    (mkDRow "M19" 19) ∈ B6 ∧ (mkDRow "M19" 19).Error_Codes_Last_30_Days = 19 ∧
    pandas_quantile (B6.map (·.Error_Codes_Last_30_Days)) (95/100) = some 19 ∧
    opt_gt 19 (some 19) = false := by
  refine ⟨?_, ?_, rfl, ?_, ?_⟩
  · exact of_decide_eq_true (by with_unfolding_all rfl)
  · exact of_decide_eq_true (by with_unfolding_all rfl)
  · with_unfolding_all rfl
  · with_unfolding_all rfl

/-- **C7**, corrected.  The count-based severity rule of the spec
(`> 5` members means HIGH else MEDIUM; `zero_utilization` CRITICAL when
non-empty else OK) holds only for `high_temperature`, `high_vibration` and
`zero_utilization`; `energy_spikes`, `high_sound` and `high_ai_override`
are always MEDIUM, `high_error_rate` uses the cutoff `> 3`, and
`maintenance_overdue` is HIGH exactly when `maintenance_critical` is
non-empty. -/
theorem C7_severity_rules (batch : List DetectRow) :
    (anomaly_details batch).sev_high_temperature =
      severity_spec "high_temperature" (detect_anomalies batch).high_temperature ∧
    (anomaly_details batch).sev_high_vibration =
      severity_spec "high_vibration" (detect_anomalies batch).high_vibration ∧
    (anomaly_details batch).sev_zero_utilization =
      severity_spec "zero_utilization" (detect_anomalies batch).zero_utilization ∧
    (anomaly_details batch).sev_energy_spikes = "MEDIUM" ∧
    (anomaly_details batch).sev_high_sound = "MEDIUM" ∧
    (anomaly_details batch).sev_high_ai_override = "MEDIUM" ∧
    (anomaly_details batch).sev_high_error_rate =
      (if (detect_anomalies batch).high_error_rate.length > 3 then "HIGH"
       else "MEDIUM") ∧
    (anomaly_details batch).sev_maintenance_overdue =
      (if (detect_anomalies batch).maintenance_critical.length > 0 then "HIGH"
       else "MEDIUM") := by
  unfold anomaly_details severity_spec
  refine ⟨?_, ?_, ?_, rfl, rfl, rfl, rfl, rfl⟩
  · rw [if_neg (by decide)]
  · rw [if_neg (by decide)]
  · rw [if_pos rfl]

/-- Counterexample to C7 as stated: in `B7` the category
`maintenance_overdue` has a single member (M0, 400 days), so the spec's
count rule gives MEDIUM, but the code tags it HIGH because
`maintenance_critical` is non-empty. -/
theorem C7_counterexample :
    (detect_anomalies B7).maintenance_overdue = ["M0"] ∧
    (anomaly_details B7).sev_maintenance_overdue = "HIGH" ∧
    severity_spec "maintenance_overdue"
      (detect_anomalies B7).maintenance_overdue = "MEDIUM" := by
  refine ⟨?_, ?_, ?_⟩
  · with_unfolding_all rfl
  · with_unfolding_all rfl
  · with_unfolding_all rfl

/-- A list containing a character other than `c` is never a prefix of a
`c`-replicate. -/
theorem isPrefixOf_replicate_false (c : Char) :
    ∀ (needle : List Char) (n : Nat), (∃ y ∈ needle, y ≠ c) →
      needle.isPrefixOf (List.replicate n c) = false := by
  intro needle
  induction needle with
  | nil => intro n h; simp at h
  | cons a as ih =>
    intro n h
    cases n with
    | zero => simp [List.isPrefixOf]
    | succ m =>
      rw [List.replicate_succ]
      simp only [List.isPrefixOf, Bool.and_eq_false_iff]
      by_cases hac : a = c
      · subst hac
        rcases h with ⟨y, hy, hne⟩
        rcases List.mem_cons.mp hy with rfl | hmem
        · exact absurd rfl hne
        · exact Or.inr (ih m ⟨y, hmem, hne⟩)
      · exact Or.inl (by simp [hac])

/-- A list containing a character other than `c` is never an infix of a
`c`-replicate. -/
theorem listInfix_replicate_false (needle : List Char) (c : Char)
    (h : ∃ y ∈ needle, y ≠ c) :
    ∀ n, listInfix needle (List.replicate n c) = false := by
  intro n
  induction n with
  | zero =>
    rcases h with ⟨y, hy, -⟩
    cases needle with
    | nil => simp at hy
    | cons a as => simp [listInfix]
  | succ m ih =>
    rw [List.replicate_succ]
    cases needle with
    | nil => rcases h with ⟨y, hy, -⟩; simp at hy
    | cons a as =>
      show (List.isPrefixOf _ _ || listInfix _ _) = false
      rw [ih, Bool.or_false]
      have := isPrefixOf_replicate_false c (a :: as) (m + 1) h
      rwa [List.replicate_succ] at this

/-- Every list is a prefix of itself followed by anything. -/
theorem isPrefixOf_append_self :
    ∀ (l r : List Char), l.isPrefixOf (l ++ r) = true := by
  intro l
  induction l with
  | nil => intro r; simp [List.isPrefixOf]
  | cons a as ih => intro r; simp [List.isPrefixOf, ih r]

/-- A prefix is an infix. -/
theorem listInfix_of_prefix (needle hay : List Char)
    (h : needle.isPrefixOf hay = true) : listInfix needle hay = true := by
  cases hay with
  | nil =>
    cases needle with
    | nil => rfl
    | cons a as => simp [List.isPrefixOf] at h
  | cons c t => show (_ || _) = true; rw [h]; rfl

/-- Prepending to the haystack preserves infixes. -/
theorem listInfix_cons_true (needle : List Char) (c : Char)
    (hay : List Char) (h : listInfix needle hay = true) :
    listInfix needle (c :: hay) = true := by
  show (_ || _) = true
  rw [h, Bool.or_true]

/-- A needle surrounded by arbitrary context is an infix. -/
theorem listInfix_surround :
    ∀ (l1 needle l2 : List Char), listInfix needle (l1 ++ (needle ++ l2)) = true := by
  intro l1
  induction l1 with
  | nil =>
    intro needle l2
    exact listInfix_of_prefix _ _ (isPrefixOf_append_self needle l2)
  | cons c t ih =>
    intro needle l2
    exact listInfix_cons_true _ c _ (ih needle l2)

/-- Uppercasing `R_cex` yields 1000 `Q`s. -/
theorem pyUpper_R_cex : pyUpper R_cex = String.mk (List.replicate 1000 'Q') := by
  show String.mk ((List.replicate 1000 'q').map pyUpperChar) = _
  rw [List.map_replicate, show pyUpperChar 'q' = 'Q' from by decide]

/-- No required section occurs in the uppercased `R_cex`. -/
theorem R_cex_no_sections :
    ∀ s ∈ required_sections, strContains (pyUpper R_cex) s = false := by
  intro s hs
  rw [pyUpper_R_cex]
  fin_cases hs
  · exact listInfix_replicate_false _ 'Q' (by decide) 1000
  · exact listInfix_replicate_false _ 'Q' (by decide) 1000
  · exact listInfix_replicate_false _ 'Q' (by decide) 1000
  · exact listInfix_replicate_false _ 'Q' (by decide) 1000

/-- No placeholder marker occurs in `R_cex`. -/
theorem R_cex_no_placeholders :
    ∀ p ∈ placeholder_markers, strContains R_cex p = false := by
  intro p hp
  fin_cases hp <;> exact listInfix_replicate_false _ 'q' (by decide) 1000

set_option maxHeartbeats 1000000 in
/-- Counterexample to C8 as stated: `R_cex` is exactly the minimum length,
syntactically balanced, and has no placeholder markers, yet it carries the
hard issue of missing every required section, so its hard-issue list is not
empty (the claim predicts zero hard issues for any such report). -/
theorem C8_counterexample :
    R_cex.length = 1000 ∧
    check_format R_cex = [] ∧
    placeholder_markers.filter (fun p => strContains R_cex p) = [] ∧
    (validate_report R_cex dec_empty).issues =
      [FVIssue.missingSections ["KPI", "ANOMALIES", "DÉCISIONS", "TRAÇABILITÉ"]] ∧
    (validate_report R_cex dec_empty).valid = false := by
  have hlen : R_cex.length = 1000 := by
    show (List.replicate 1000 'q').length = 1000
    rw [List.length_replicate]
  have hnl : strContains R_cex "\n\n\n\n" = false :=
    listInfix_replicate_false _ 'q' (by decide) 1000
  have hfmt : check_format R_cex = [] := by
    unfold check_format
    have hc : ∀ c : Char, c ≠ 'q' → R_cex.data.count c = 0 := by
      intro c hcq
      show (List.replicate 1000 'q').count c = 0
      rw [List.count_replicate, if_neg (by simpa using fun h => hcq h.symm)]
    rw [hc '╔' (by decide), hc '╚' (by decide), hc '┌' (by decide),
      hc '└' (by decide), hnl]
    simp
  have hK := R_cex_no_sections "KPI" (by decide)
  have hA := R_cex_no_sections "ANOMALIES" (by decide)
  have hD := R_cex_no_sections "DÉCISIONS" (by decide)
  have hT := R_cex_no_sections "TRAÇABILITÉ" (by decide)
  have hph : placeholder_markers.filter (fun p => strContains R_cex p) = [] := by
    refine List.filter_eq_nil_iff.mpr ?_
    intro p hp
    rw [R_cex_no_placeholders p hp]
    simp
  refine ⟨hlen, hfmt, hph, ?_, ?_⟩
  · simp only [validate_report]
    simp [hlen, fv_min_length, required_sections, hK, hA, hD, hT, dec_empty]
  · simp only [validate_report]
    simp [hlen, fv_min_length, required_sections, hK, hA, hD, hT, dec_empty]

/-- The missing-section list is empty exactly when every required section
header occurs in the uppercased report. -/
theorem missing_sections_nil_iff (report : String) :
    required_sections.filter (fun s => !(strContains (pyUpper report) s)) = []
      ↔ ∀ s ∈ required_sections, strContains (pyUpper report) s = true := by
  rw [List.filter_eq_nil_iff]
  simp

/-- **C8**, corrected.  `validate_report` returns `valid = false` iff a hard
failure holds (too short, a required section header absent, or
`action_needed` with zero decisions); a report missing the DÉCISIONS
section is always invalid with an issue naming that section; and a report
of at least the minimum length with every required section present and a
consistent decision record yields zero hard issues (syntactic balance and
placeholder markers affect only warnings). -/
theorem C8_report_validation_gate (report : String) (dc : DecisionRecord) :
    ((validate_report report dc).valid = false ↔
      (report.length < 1000 ∨
       (∃ s ∈ required_sections, strContains (pyUpper report) s = false) ∨
       (dc.action_needed = true ∧ dc.decisions = []))) ∧
    (strContains (pyUpper report) "DÉCISIONS" = false →
      (validate_report report dc).valid = false ∧
      ∃ l, FVIssue.missingSections l ∈ (validate_report report dc).issues ∧
        "DÉCISIONS" ∈ l) ∧
    (1000 ≤ report.length →
      (∀ s ∈ required_sections, strContains (pyUpper report) s = true) →
      ¬(dc.action_needed = true ∧ dc.decisions = []) →
      (validate_report report dc).issues = []) := by
  have hlen0 : ∀ l : List Decision, l.length = 0 ↔ l = [] := by
    intro l; exact List.length_eq_zero
  refine ⟨?_, ?_, ?_⟩
  · by_cases h1 : report.length < fv_min_length <;>
    by_cases hm : required_sections.filter
        (fun s => !(strContains (pyUpper report) s)) = [] <;>
    by_cases h3 : dc.action_needed = true ∧ dc.decisions.length = 0 <;>
      simp only [validate_report, h1, hm, h3, if_pos, if_neg, if_true,
        if_false, fv_min_length] <;>
      simp_all [missing_sections_nil_iff, List.isEmpty_iff, hlen0,
        fv_min_length]
  · intro hD
    have hmem : "DÉCISIONS" ∈ required_sections.filter
        (fun s => !(strContains (pyUpper report) s)) := by
      rw [List.mem_filter]
      exact ⟨by decide, by rw [hD]; rfl⟩
    have hne : required_sections.filter
        (fun s => !(strContains (pyUpper report) s)) ≠ [] :=
      List.ne_nil_of_mem hmem
    constructor
    · simp only [validate_report, if_pos hne]
      simp [List.isEmpty_iff]
    · refine ⟨required_sections.filter
        (fun s => !(strContains (pyUpper report) s)), ?_, hmem⟩
      simp only [validate_report, if_pos hne]
      simp
  · intro hlong hall h3
    have h1 : ¬ report.length < fv_min_length := not_lt.mpr hlong
    have hm : required_sections.filter
        (fun s => !(strContains (pyUpper report) s)) = [] :=
      (missing_sections_nil_iff report).mpr hall
    have h3' : ¬(dc.action_needed = true ∧ dc.decisions.length = 0) := by
      rw [hlen0]; exact h3
    simp only [validate_report, if_neg h1, if_pos hm, if_neg h3']
    simp [hm]

/-- Uppercasing `R_good` keeps its section header prefix and turns the
padding into `Q`s. -/
theorem pyUpper_R_good_data :
    (pyUpper R_good).data =
      ("KPI ANOMALIES DÉCISIONS TRAÇABILITÉ ").data ++
        List.replicate 1000 'Q' := by
  show List.map pyUpperChar
    (("KPI ANOMALIES DÉCISIONS TRAÇABILITÉ ").data ++ List.replicate 1000 'q')
      = _
  rw [List.map_append, List.map_replicate,
    show pyUpperChar 'q' = 'Q' from by decide]
  congr 1

/-- Every required section occurs in the uppercased `R_good`. -/
theorem R_good_sections :
    ∀ s ∈ required_sections, strContains (pyUpper R_good) s = true := by
  intro s hs
  show listInfix s.data (pyUpper R_good).data = true
  rw [pyUpper_R_good_data]
  fin_cases hs
  · exact listInfix_surround [] ("KPI").data
      ((" ANOMALIES DÉCISIONS TRAÇABILITÉ ").data ++ List.replicate 1000 'Q')
  · exact listInfix_surround ("KPI ").data ("ANOMALIES").data
      ((" DÉCISIONS TRAÇABILITÉ ").data ++ List.replicate 1000 'Q')
  · exact listInfix_surround ("KPI ANOMALIES ").data ("DÉCISIONS").data
      ((" TRAÇABILITÉ ").data ++ List.replicate 1000 'Q')
  · exact listInfix_surround ("KPI ANOMALIES DÉCISIONS ").data
      ("TRAÇABILITÉ").data ((" ").data ++ List.replicate 1000 'Q')

/-- `R_good` is above the minimum report length. -/
theorem R_good_min_length : 1000 ≤ R_good.length := by
  show 1000 ≤ (("KPI ANOMALIES DÉCISIONS TRAÇABILITÉ ").data ++
    List.replicate 1000 'q').length
  rw [List.length_append, List.length_replicate]
  have h : ("KPI ANOMALIES DÉCISIONS TRAÇABILITÉ ").data.length = 36 := by
    decide
  omega

/-- Witness for C8: the sectionless `R_cex` is rejected, and the
well-formed `R_good` with a consistent decision record yields zero hard
issues. -/
theorem C8_witness :
    (validate_report R_cex dec_empty).valid = false ∧
    (validate_report R_good dec_empty).issues = [] := by
  refine ⟨((C8_report_validation_gate R_cex dec_empty).2.1 ?_).1,
    (C8_report_validation_gate R_good dec_empty).2.2 ?_ ?_ ?_⟩
  · exact R_cex_no_sections "DÉCISIONS" (by decide)
  · exact R_good_min_length
  · exact R_good_sections
  · simp [dec_empty]

/-- Appending anything to a non-empty string is non-empty. -/
theorem str_append_ne_empty_left (s t : String) (h : s ≠ "") :
    s ++ t ≠ "" := by
  intro hc
  apply h
  have hd : s.data ++ t.data = ([] : List Char) := congrArg String.data hc
  rcases List.append_eq_nil.mp hd with ⟨hs, -⟩
  cases s with
  | mk d =>
    simp only at hs
    rw [show ("" : String) = String.mk [] from rfl, hs]

/-- The deterministic fallback narrative is never empty. -/
theorem fallback_text_ne_empty (summary : Summary) (anomalies : Anomalies) :
    fallback_text summary anomalies ≠ "" := by
  simp only [fallback_text]
  repeat apply str_append_ne_empty_left
  decide

/-- **C9**, corrected.  Each `interpret` call makes at most one external
generation call; whenever the client is missing or the generation call
raises — and the summary's machine count is nonzero — no failure reaches
the caller and the result is status `"fallback"` with non-empty text that
is a function of the numeric summary and the anomaly counts alone.  (With
a machine count of zero the fallback itself raises `ZeroDivisionError`,
which escapes `interpret`; see the counterexample.) -/
theorem C9_interpret_fallback (client : Option (Except String String))
    (summary : Summary) (anomalies : Anomalies)
    (htotal : summary.total_machines.getD 0 ≠ 0)
    (hfail : client = none ∨ ∃ e, client = some (Except.error e)) :
    (∀ c, (interpret c summary anomalies).2 ≤ 1) ∧
    ∃ r, (interpret client summary anomalies).1 = Except.ok r ∧
      r.status = "fallback" ∧ r.text = fallback_text summary anomalies ∧
      r.text ≠ "" := by
  have hfb : generate_fallback_insights summary anomalies =
      .ok (fallback_text summary anomalies) := by
    unfold generate_fallback_insights
    rw [if_neg htotal]
  constructor
  · intro c
    cases c with
    | none => simp [interpret]
    | some ex =>
      cases ex with
      | error e => simp [interpret]
      | ok t => simp [interpret]
  · rcases hfail with rfl | ⟨e, rfl⟩
    · refine ⟨⟨fallback_text summary anomalies, "fallback", some "fallback",
        none⟩, ?_, rfl, rfl, fallback_text_ne_empty _ _⟩
      simp [interpret, hfb]
    · refine ⟨⟨fallback_text summary anomalies, "fallback", none, some e⟩,
        ?_, rfl, rfl, fallback_text_ne_empty _ _⟩
      simp [interpret, hfb]

/-- Counterexample to C9 as stated: with zero machines in the summary, the
fallback's percentage computation divides by zero and the error escapes
`interpret` in both no-client and raising-generation scenarios. -/
theorem C9_counterexample :
    (interpret none s_zero a_empty).1 = Except.error "ZeroDivisionError" ∧
    (interpret (some (Except.error "Timeout")) s_zero a_empty).1 =
      Except.error "ZeroDivisionError" := by
  constructor <;> rfl

/-- Witness for C9 at a ten-machine summary with no client configured. -/
theorem C9_witness :
    (interpret (some (Except.ok "text")) s_pos a_empty).2 ≤ 1 ∧
    ((interpret none s_pos a_empty).1.map (fun r => r.status) =
      Except.ok "fallback") := by
  obtain ⟨hcalls, r, h1, h2, -, -⟩ :=
    C9_interpret_fallback none s_pos a_empty (by decide) (Or.inl rfl)
  refine ⟨hcalls _, ?_⟩
  rw [h1]
  simp [Except.map, h2]

/-- `getLast!` of a six-element list. -/
theorem getLast_six (a b c d e f : String) :
    ([a, b, c, d, e, f] : List String).getLast! = f := rfl

/-- **C4.**  In `decide` the overall priority starts at NORMAL and every
later assignment only raises it along NORMAL < HIGH < URGENT (the
successive values of the `priority` variable form a `prio_rank`-monotone
chain whose last element is the returned priority); and whenever the
summary's average health score is below 50 the returned priority is
URGENT. -/
theorem C4_decide_priority_monotone (summary : Summary)
    (anomalies : Anomalies) (llm_result : LLMResult) (qc_result : QCResult)
    (rec : DecisionRecord)
    (h : decide summary anomalies llm_result qc_result = Except.ok rec) :
    (decide_priority_trace summary anomalies llm_result).head? =
      some "NORMAL" ∧
    List.Chain' (fun p q => prio_rank p ≤ prio_rank q)
      (decide_priority_trace summary anomalies llm_result) ∧
    rec.priority =
      (decide_priority_trace summary anomalies llm_result).getLast! ∧
    (summary.avg_health_score.getD 100 < 50 → rec.priority = "URGENT") := by
  simp only [MAS.decide] at h
  split at h
  · simp at h
  · injection h with h'
    subst h'
    refine ⟨rfl, ?_, rfl, ?_⟩
    · simp only [decide_priority_trace, List.chain'_cons,
        List.chain'_singleton, and_true]
      split_ifs <;> simp_all [prio_rank]
    · intro havg
      show (decide_priority_trace summary anomalies llm_result).getLast!
        = "URGENT"
      simp only [decide_priority_trace]
      rw [getLast_six, if_pos havg]

/-- Witness for C4: a summary with average health 40 yields a decision
record whose priority is URGENT. -/
theorem C4_witness :
    decide s_low_health a_empty llm_ok qc_ok = Except.ok rec_low_health ∧
    rec_low_health.priority = "URGENT" := by
  have h : decide s_low_health a_empty llm_ok qc_ok =
      Except.ok rec_low_health := by
    with_unfolding_all rfl
  exact ⟨h, (C4_decide_priority_monotone s_low_health a_empty llm_ok qc_ok
    rec_low_health h).2.2.2 (by norm_num [s_low_health])⟩

/-- With a nonzero machine count, `interpret` never raises. -/
theorem interpret_ok (c : Option (Except String String)) (s : Summary)
    (a : Anomalies) (htotal : s.total_machines.getD 0 ≠ 0) :
    ∃ r, (interpret c s a).1 = Except.ok r := by
  have hfb : generate_fallback_insights s a = .ok (fallback_text s a) := by
    unfold generate_fallback_insights
    rw [if_neg htotal]
  cases c with
  | none =>
    exact ⟨⟨fallback_text s a, "fallback", some "fallback", none⟩,
      by simp [interpret, hfb]⟩
  | some ex =>
    cases ex with
    | ok t => exact ⟨_, rfl⟩
    | error e =>
      exact ⟨⟨fallback_text s a, "fallback", none, some e⟩,
        by simp [interpret, hfb]⟩

/-- The LLM retry loop records at most `fuel` entries, all tagged
`QualityControl`. -/
theorem llm_retry_loop_entries (env : PipelineEnv) :
    ∀ (fuel i : Nat) res, llm_retry_loop env i fuel = .ok res →
      res.2.2.length ≤ fuel ∧ ∀ e ∈ res.2.2, e.agent = "QualityControl" := by
  intro fuel
  induction fuel with
  | zero =>
    intro i res h
    simp only [llm_retry_loop] at h
    injection h with h'
    subst h'
    simp
  | succ n ih =>
    intro i res h
    simp only [llm_retry_loop] at h
    split at h
    · simp at h
    · split at h
      · injection h with h'
        subst h'
        refine ⟨by simp, ?_⟩
        intro e he
        simp only [List.mem_singleton] at he
        subst he
        rfl
      · split at h
        · simp at h
        · rename_i l q es heq2
          injection h with h'
          subst h'
          obtain ⟨hlen, hag⟩ := ih (i + 1) (l, q, es) heq2
          refine ⟨by simpa using Nat.succ_le_succ hlen, ?_⟩
          intro e he
          rcases List.mem_cons.mp he with rfl | hmem
          · rfl
          · exact hag e hmem

/-- One unfolding of the LLM retry loop when `interpret` returns
normally. -/
theorem llm_retry_loop_step (env : PipelineEnv) (i n : Nat) (r : LLMResult)
    (hr : (interpret (env.gen_at i) env.summary env.anomalies).1 =
      Except.ok r) :
    llm_retry_loop env i (n + 1) =
      if ((validate_llm_output r env.summary).valid ||
          !(validate_llm_output r env.summary).retry_needed) = true then
        Except.ok (some r, some (validate_llm_output r env.summary),
          [⟨"QualityControl", (validate_llm_output r env.summary).valid,
            "LLM validation (attempt " ++ toString (i + 1) ++ ")",
            .qc (validate_llm_output r env.summary).issues⟩])
      else
        match llm_retry_loop env (i + 1) n with
        | .error e => .error e
        | .ok (l, q, es) =>
          .ok (l <|> some r, q <|> some (validate_llm_output r env.summary),
            ⟨"QualityControl", (validate_llm_output r env.summary).valid,
              "LLM validation (attempt " ++ toString (i + 1) ++ ")",
              .qc (validate_llm_output r env.summary).issues⟩ :: es) := by
  simp only [llm_retry_loop]
  rw [hr]

/-- With a nonzero machine count, the LLM retry loop returns normally, and
with positive fuel its final results are populated. -/
theorem llm_retry_loop_ok (env : PipelineEnv)
    (htotal : env.summary.total_machines.getD 0 ≠ 0) :
    ∀ (fuel i : Nat), ∃ l q es, llm_retry_loop env i fuel = .ok (l, q, es) ∧
      (0 < fuel → ∃ lr qr, l = some lr ∧ q = some qr) := by
  intro fuel
  induction fuel with
  | zero =>
    intro i
    exact ⟨none, none, [], by simp [llm_retry_loop], by omega⟩
  | succ n ih =>
    intro i
    obtain ⟨r, hr⟩ := interpret_ok (env.gen_at i) env.summary env.anomalies
      htotal
    by_cases hc : ((validate_llm_output r env.summary).valid ||
        !(validate_llm_output r env.summary).retry_needed) = true
    · refine ⟨some r, some (validate_llm_output r env.summary),
        [⟨"QualityControl", (validate_llm_output r env.summary).valid,
          "LLM validation (attempt " ++ toString (i + 1) ++ ")",
          .qc (validate_llm_output r env.summary).issues⟩], ?_, ?_⟩
      · rw [llm_retry_loop_step env i n r hr, if_pos hc]
      · intro _
        exact ⟨r, validate_llm_output r env.summary, rfl, rfl⟩
    · obtain ⟨l, q, es, hloop, -⟩ := ih (i + 1)
      refine ⟨l <|> some r, q <|> some (validate_llm_output r env.summary),
        ⟨"QualityControl", (validate_llm_output r env.summary).valid,
          "LLM validation (attempt " ++ toString (i + 1) ++ ")",
          .qc (validate_llm_output r env.summary).issues⟩ :: es, ?_, ?_⟩
      · rw [llm_retry_loop_step env i n r hr, if_neg hc, hloop]
      · intro _
        cases l <;> cases q <;> simp [Option.orElse]

/-- Under a persistently failing narrative validator with retry always
advised, the LLM retry loop uses its entire budget and every recorded
entry is a failed `QualityControl` validation. -/
theorem llm_retry_loop_fail (env : PipelineEnv)
    (htotal : env.summary.total_machines.getD 0 ≠ 0)
    (hqc : ∀ i r,
      (interpret (env.gen_at i) env.summary env.anomalies).1 = Except.ok r →
      (validate_llm_output r env.summary).valid = false ∧
      (validate_llm_output r env.summary).retry_needed = true) :
    ∀ (fuel i : Nat), ∃ l q es,
      llm_retry_loop env i fuel = .ok (l, q, es) ∧ es.length = fuel ∧
      ∀ e ∈ es, e.agent = "QualityControl" ∧ e.valid = false := by
  intro fuel
  induction fuel with
  | zero =>
    intro i
    exact ⟨none, none, [], by simp [llm_retry_loop], rfl, by simp⟩
  | succ n ih =>
    intro i
    obtain ⟨r, hr⟩ := interpret_ok (env.gen_at i) env.summary env.anomalies
      htotal
    obtain ⟨hv, hrn⟩ := hqc i r hr
    have hc : ¬(((validate_llm_output r env.summary).valid ||
        !(validate_llm_output r env.summary).retry_needed) = true) := by
      rw [hv, hrn]
      simp
    obtain ⟨l, q, es, hloop, hlen, hall⟩ := ih (i + 1)
    refine ⟨l <|> some r, q <|> some (validate_llm_output r env.summary),
      ⟨"QualityControl", (validate_llm_output r env.summary).valid,
          "LLM validation (attempt " ++ toString (i + 1) ++ ")",
          .qc (validate_llm_output r env.summary).issues⟩ :: es, ?_, ?_, ?_⟩
    · rw [llm_retry_loop_step env i n r hr, if_neg hc, hloop]
    · simpa using hlen
    · intro e he
      rcases List.mem_cons.mp he with rfl | hmem
      · exact ⟨rfl, hv⟩
      · exact hall e hmem

/-- The final-validation retry loop records at most `fuel` entries, all
tagged `FinalValidator`. -/
theorem final_retry_loop_entries (report : String) (dec : DecisionRecord) :
    ∀ (fuel i : Nat),
      (final_retry_loop report dec i fuel).2.length ≤ fuel ∧
      ∀ e ∈ (final_retry_loop report dec i fuel).2,
        e.agent = "FinalValidator" := by
  intro fuel
  induction fuel with
  | zero => intro i; simp [final_retry_loop]
  | succ n ih =>
    intro i
    simp only [final_retry_loop]
    split
    · refine ⟨by simp, ?_⟩
      intro e he
      simp only [List.mem_singleton] at he
      subst he
      rfl
    · obtain ⟨hlen, hag⟩ := ih (i + 1)
      refine ⟨by simpa using Nat.succ_le_succ hlen, ?_⟩
      intro e he
      rcases List.mem_cons.mp he with rfl | hmem
      · rfl
      · exact hag e hmem

/-- Under a failing report validator the final-validation retry loop uses
its entire budget and every entry is a failed `FinalValidator`
validation. -/
theorem final_retry_loop_fail (report : String) (dec : DecisionRecord)
    (hfv : (validate_report report dec).valid = false) :
    ∀ (fuel i : Nat),
      (final_retry_loop report dec i fuel).2.length = fuel ∧
      ∀ e ∈ (final_retry_loop report dec i fuel).2,
        e.agent = "FinalValidator" ∧ e.valid = false := by
  intro fuel
  induction fuel with
  | zero => intro i; simp [final_retry_loop]
  | succ n ih =>
    intro i
    simp only [final_retry_loop]
    rw [if_neg (by simp [hfv])]
    obtain ⟨hlen, hall⟩ := ih (i + 1)
    refine ⟨by simpa using hlen, ?_⟩
    intro e he
    rcases List.mem_cons.mp he with rfl | hmem
    · exact ⟨rfl, hfv⟩
    · exact hall e hmem

/-- With a nonzero machine count, `decide` never raises. -/
theorem decide_ok (s : Summary) (a : Anomalies) (llm : LLMResult)
    (qc : QCResult) (htotal : s.total_machines.getD 1 ≠ 0) :
    ∃ rec, decide s a llm qc = .ok rec := by
  simp only [MAS.decide]
  rw [if_neg htotal]
  exact ⟨_, rfl⟩

/-- Shape of a completed run: with a passing raw gate and a nonzero
machine count, the pipeline reaches `status = "success"`, publishes the
report, and its history is the base entries followed by the two loops'
entries. -/
theorem run_pipeline_success (env : PipelineEnv) (er ed ep : Bool)
    (hraw : env.validation1.valid = true)
    (htotal : env.summary.total_machines.getD 0 ≠ 0) :
    ∃ llm qc es dec,
      llm_retry_loop env 0 max_retries = .ok (some llm, some qc, es) ∧
      decide env.summary env.anomalies llm qc = .ok dec ∧
      (run_pipeline env er ed ep).status = "success" ∧
      (run_pipeline env er ed ep).report = some env.report_text ∧
      (run_pipeline env er ed ep).errors = [] ∧
      (run_pipeline env er ed ep).validation_history =
        some (base_entries env ++ es ++
          (final_retry_loop env.report_text dec 0 max_retries).2) ∧
      ∀ st ∈ ["data_collection", "raw_validation", "preprocessing",
          "post_validation", "kpi_calculation", "analysis",
          "anomaly_detection", "llm_analysis", "decision",
          "report_generation", "final_validation"],
        st ∈ (run_pipeline env er ed ep).stages_completed := by
  obtain ⟨l, q, es, hloop, hsome⟩ :=
    llm_retry_loop_ok env htotal max_retries 0
  obtain ⟨lr, qr, rfl, rfl⟩ := hsome (by norm_num [max_retries])
  have htotal1 : env.summary.total_machines.getD 1 ≠ 0 := by
    cases h : env.summary.total_machines with
    | none => rw [h] at htotal; simp at htotal
    | some n => rw [h] at htotal; simpa using htotal
  obtain ⟨dec, hdec⟩ := decide_ok env.summary env.anomalies lr qr htotal1
  have hrun : run_pipeline env er ed ep =
      { status := "success"
        stages_completed :=
          ((["data_collection"] ++ ["raw_validation", "preprocessing"] ++
            ["post_validation", "kpi_calculation", "analysis",
              "anomaly_detection"]
            ++ (if er then ["reasoning"] else [])
            ++ (if ed then ["debate"] else [])
            ++ (if ep then ["planning"] else [])) ++ ["llm_analysis"] ++
            ["decision"] ++ ["report_generation"] ++ ["final_validation"])
        errors := []
        report := some env.report_text
        llm_insight := some lr
        quality_control := some qr
        decisions := some dec
        final_validation := (final_retry_loop env.report_text dec 0
          max_retries).1
        validation_history := some (base_entries env ++ es ++
          (final_retry_loop env.report_text dec 0 max_retries).2) } := by
    simp only [run_pipeline, hraw, hloop, hdec]
    simp [base_entries, List.append_assoc, hraw]
  refine ⟨lr, qr, es, dec, hloop, hdec, ?_, ?_, ?_, ?_, ?_⟩ <;>
    rw [hrun] <;> try rfl
  intro st hst
  fin_cases hst <;> simp

/-- Whenever a run publishes a validation history, the run went through
both retry loops and the history is the base entries followed by the
loops' entries. -/
theorem run_pipeline_history (env : PipelineEnv) (er ed ep : Bool)
    (h : List VEntry)
    (hh : (run_pipeline env er ed ep).validation_history = some h) :
    ∃ llm qc es dec,
      llm_retry_loop env 0 max_retries = .ok (some llm, some qc, es) ∧
      decide env.summary env.anomalies llm qc = .ok dec ∧
      h = base_entries env ++ es ++
        (final_retry_loop env.report_text dec 0 max_retries).2 := by
  unfold run_pipeline at hh
  split at hh
  · simp at hh
  · rcases hL : llm_retry_loop env 0 max_retries with e | ⟨l, q, es⟩
    · rw [hL] at hh
      simp at hh
    · rw [hL] at hh
      cases l with
      | none => simp at hh
      | some lr =>
        cases q with
        | none => simp at hh
        | some qr =>
          simp only [] at hh
          rcases hD : decide env.summary env.anomalies lr qr with e | dec
          · rw [hD] at hh
            simp at hh
          · rw [hD] at hh
            simp only [Option.some.injEq] at hh
            exact ⟨lr, qr, es, dec, rfl, hD,
              by rw [← hh]; simp [base_entries, List.append_assoc]⟩

/-- A list of entries all owned by agent `a` contributes nothing to the
filter for a different agent `b`. -/
theorem filter_agent_nil (l : List VEntry) (a b : String)
    (hall : ∀ e ∈ l, e.agent = a) (hne : a ≠ b) :
    l.filter (fun e => e.agent == b) = [] := by
  refine List.filter_eq_nil_iff.mpr ?_
  intro e he
  rw [hall e he]
  simp [hne]

/-- A list of entries all owned by agent `a` is returned whole by the
filter for `a`. -/
theorem filter_agent_self (l : List VEntry) (a : String)
    (hall : ∀ e ∈ l, e.agent = a) :
    l.filter (fun e => e.agent == a) = l := by
  refine List.filter_eq_self.mpr ?_
  intro e he
  rw [hall e he]
  simp

/-- **C1.**  In every run that publishes a validation history, each retry
loop has recorded at most `max_retries = 3` validation attempts; and under
persistently failing validators (narrative validation always invalid with
retry advised, report validation always invalid) the run still completes
with `status = "success"` while the history carries exactly three failed
`QualityControl` entries and three failed `FinalValidator` entries. -/
theorem C1_retry_budget_and_exhaustion (env : PipelineEnv) (er ed ep : Bool)
    (hraw : env.validation1.valid = true)
    (htotal : env.summary.total_machines.getD 0 ≠ 0)
    (hqc : ∀ i r,
      (interpret (env.gen_at i) env.summary env.anomalies).1 = Except.ok r →
      (validate_llm_output r env.summary).valid = false ∧
      (validate_llm_output r env.summary).retry_needed = true)
    (hfv : ∀ d : DecisionRecord,
      (validate_report env.report_text d).valid = false) :
    (∀ (env₂ : PipelineEnv) (b1 b2 b3 : Bool) (h₂ : List VEntry),
      (run_pipeline env₂ b1 b2 b3).validation_history = some h₂ →
      (h₂.filter (fun e => e.agent == "QualityControl")).length ≤ max_retries ∧
      (h₂.filter (fun e => e.agent == "FinalValidator")).length ≤ max_retries) ∧
    (run_pipeline env er ed ep).status = "success" ∧
    ∃ h, (run_pipeline env er ed ep).validation_history = some h ∧
      (h.filter (fun e => e.agent == "QualityControl")).length = 3 ∧
      (h.filter (fun e => e.agent == "FinalValidator")).length = 3 ∧
      (∀ e ∈ h, e.agent = "QualityControl" → e.valid = false) ∧
      (∀ e ∈ h, e.agent = "FinalValidator" → e.valid = false) := by
  have hbaseQC : ∀ env₂ : PipelineEnv,
      (base_entries env₂).filter (fun e => e.agent == "QualityControl")
        = [] := by
    intro env₂
    simp [base_entries]
  have hbaseFV : ∀ env₂ : PipelineEnv,
      (base_entries env₂).filter (fun e => e.agent == "FinalValidator")
        = [] := by
    intro env₂
    simp [base_entries]
  refine ⟨?_, ?_⟩
  · intro env₂ b1 b2 b3 h₂ hh
    obtain ⟨llm, qc, es, dec, hloop, hdec, hsh⟩ :=
      run_pipeline_history env₂ b1 b2 b3 h₂ hh
    subst hsh
    obtain ⟨hesle, hesag⟩ :=
      llm_retry_loop_entries env₂ max_retries 0 (some llm, some qc, es) hloop
    obtain ⟨hfinle, hfinag⟩ :=
      final_retry_loop_entries env₂.report_text dec max_retries 0
    constructor
    · rw [List.filter_append, List.filter_append, hbaseQC,
        filter_agent_self es "QualityControl" hesag,
        filter_agent_nil _ "FinalValidator" _ hfinag (by decide)]
      simpa using hesle
    · rw [List.filter_append, List.filter_append, hbaseFV,
        filter_agent_nil es "QualityControl" _ hesag (by decide),
        filter_agent_self _ "FinalValidator" hfinag]
      simpa using hfinle
  · obtain ⟨llm, qc, es, dec, hloop, hdec, hst, hrep, herr, hhist, hstages⟩ :=
      run_pipeline_success env er ed ep hraw htotal
    obtain ⟨l', q', es', hloop', hlen', hall'⟩ :=
      llm_retry_loop_fail env htotal hqc max_retries 0
    rw [hloop] at hloop'
    injection hloop' with htup
    cases htup
    obtain ⟨hflen, hfall⟩ :=
      final_retry_loop_fail env.report_text dec (hfv dec) max_retries 0
    refine ⟨hst, base_entries env ++ es ++
      (final_retry_loop env.report_text dec 0 max_retries).2, hhist,
      ?_, ?_, ?_, ?_⟩
    · rw [List.filter_append, List.filter_append, hbaseQC,
        filter_agent_self es "QualityControl" (fun e he => (hall' e he).1),
        filter_agent_nil _ "FinalValidator" _
          (fun e he => (hfall e he).1) (by decide)]
      simpa using hlen'
    · rw [List.filter_append, List.filter_append, hbaseFV,
        filter_agent_nil es "QualityControl" _
          (fun e he => (hall' e he).1) (by decide),
        filter_agent_self _ "FinalValidator" (fun e he => (hfall e he).1)]
      simpa using hflen
    · intro e he hag
      rcases List.mem_append.mp he with hbe | hfe
      · rcases List.mem_append.mp hbe with hb | hes
        · simp [base_entries] at hb
          rcases hb with rfl | rfl | rfl <;> simp_all
        · exact (hall' e hes).2
      · rw [(hfall e hfe).1] at hag
        exact absurd hag (by decide)
    · intro e he hag
      rcases List.mem_append.mp he with hbe | hfe
      · rcases List.mem_append.mp hbe with hb | hes
        · simp [base_entries] at hb
          rcases hb with rfl | rfl | rfl <;> simp_all
        · rw [(hall' e hes).1] at hag
          exact absurd hag (by decide)
      · exact (hfall e hfe).2

/-- Witness for C1 on `env0`: a short non-fallback narrative and an empty
report make both validators fail persistently, yet the run succeeds with
three recorded attempts per loop. -/
theorem C1_witness :
    (run_pipeline env0 true true true).status = "success" ∧
    (((run_pipeline env0 true true true).validation_history.getD []).filter
      (fun e => e.agent == "QualityControl")).length = 3 ∧
    (((run_pipeline env0 true true true).validation_history.getD []).filter
      (fun e => e.agent == "FinalValidator")).length = 3 := by
  obtain ⟨-, hst, h, hh, hqc3, hfv3, -, -⟩ :=
    C1_retry_budget_and_exhaustion env0 true true true rfl (by decide)
      (by
        intro i r h
        have hr : r = ⟨"ok", "success", some "gemini-2.5-flash", none⟩ := by
          injection h with h'
          exact h'.symm
        subst hr
        exact ⟨by with_unfolding_all rfl, by with_unfolding_all rfl⟩)
      (by
        intro d
        simp [validate_report, fv_min_length, env0])
  rw [hh] at *
  exact ⟨hst, hqc3, hfv3⟩

/-- **C2.**  `run_pipeline` gates asymmetrically: a failing raw-data
validation aborts immediately with `status = "failed"`, the validator's
issue list, only the collection stage completed, and no report; a failing
post-cleaning validation is recorded as a failed history entry only, and
every later stage still executes with `status = "success"` and a published
report. -/
theorem C2_validation_gates (env env' : PipelineEnv)
    (er ed ep er' ed' ep' : Bool)
    (h1 : env.validation1.valid = false)
    (h2 : env'.validation1.valid = true)
    (h3 : env'.validation2.valid = false)
    (htotal : env'.summary.total_machines.getD 0 ≠ 0) :
    (run_pipeline env er ed ep).status = "failed" ∧
    (run_pipeline env er ed ep).errors =
      [.validation env.validation1.issues] ∧
    (run_pipeline env er ed ep).stages_completed = ["data_collection"] ∧
    (run_pipeline env er ed ep).report = none ∧
    (run_pipeline env er ed ep).llm_insight = none ∧
    (run_pipeline env er ed ep).decisions = none ∧
    (run_pipeline env' er' ed' ep').status = "success" ∧
    (run_pipeline env' er' ed' ep').report = some env'.report_text ∧
    (∀ st ∈ ["post_validation", "kpi_calculation", "analysis",
        "anomaly_detection", "llm_analysis", "decision", "report_generation",
        "final_validation"],
      st ∈ (run_pipeline env' er' ed' ep').stages_completed) ∧
    ∃ h, (run_pipeline env' er' ed' ep').validation_history = some h ∧
      (⟨"Validator", false, "Post-processing validation",
        .raw env'.validation2.issues⟩ : VEntry) ∈ h := by
  have hrun : run_pipeline env er ed ep =
      { status := "failed", stages_completed := ["data_collection"],
        errors := [.validation env.validation1.issues] } := by
    unfold run_pipeline
    rw [if_pos h1]
  obtain ⟨llm, qc, es, dec, hloop, hdec, hst, hrep, herr, hhist, hstages⟩ :=
    run_pipeline_success env' er' ed' ep' h2 htotal
  refine ⟨by rw [hrun], by rw [hrun], by rw [hrun], by rw [hrun],
    by rw [hrun], by rw [hrun], hst, hrep, ?_, ?_⟩
  · intro st hst'
    apply hstages
    fin_cases hst' <;> simp
  · refine ⟨_, hhist, ?_⟩
    rw [← h3]
    simp [base_entries]

/-- Witness for C2: a failing raw gate aborts the run, a failing
post-cleaning gate does not. -/
theorem C2_witness :
    (run_pipeline env_hard_fail true true true).status = "failed" ∧
    (run_pipeline env_soft_fail true true true).status = "success" := by
  obtain ⟨hs1, -, -, -, -, -, hs2, -, -, -⟩ :=
    C2_validation_gates env_hard_fail env_soft_fail true true true true true
      true rfl rfl rfl (by decide)
  exact ⟨hs1, hs2⟩

end MAS
